import Mathlib

/-!
FoveHMD: stereo state machine, projection matrix, coordinate conversion, gaze
queries, the rendering bridge, eye state queries and the stereo view layout.

A shallow embedding of the parts of `Source/FoveHMD/Private/FoveHMD.cpp` and
`Source/FoveHMD/Public/FoveHMD.h` that the stereo/device enablement logic, the
stereo projection matrix, the device-to-host coordinate conversions, the gaze
queries, the frame submission of the rendering bridge, the eye state queries with
their function-library wrappers, and the per-eye view offset and view rectangle
live in.

Modelling conventions:

* `float` values are exact rationals (`ℚ`); rounding is not modelled.
* `check(e)` is a run-time assertion: a failed `check` aborts the call, which is
  the fault `Fault.checkFailed` in the `Except Fault` monad.
* a float division whose divisor is zero yields a non-finite value (NaN/Inf);
  the embedding reports it as the fault `Fault.divisionByZero`, so that a call
  returning `.ok` has evaluated no division by zero.
* `int32`/`uint32` values are integers, wrapped explicitly where the source
  performs arithmetic or a conversion on them.
* member functions take the object (`FFoveHMD`) and the engine globals they touch
  (`Engine`) as explicit state and return the updated state.
* an out-pointer is an `Option`: `none` for a null pointer, otherwise the value
  stored behind it; a function returns the contents of its out-pointers afterwards.
* a local that is read before any assignment has an indeterminate value, which is
  an explicit parameter of the function.
-/

namespace FoveHMD

/-! ## Faults and assertions -/

/-- The ways a modelled call can leave the domain of well-defined results. -/
inductive Fault where
  | checkFailed
  | divisionByZero
  deriving DecidableEq, Repr

/-- Unreal's `check(expr)`: continue when the condition holds, abort otherwise. -/
def check (cond : Bool) : Except Fault Unit :=
  if cond then .ok () else .error Fault.checkFailed

/-- Float division `a / b`; a zero divisor is reported as a fault. -/
def fdiv (a b : ℚ) : Except Fault ℚ :=
  if b = 0 then .error Fault.divisionByZero else .ok (a / b)

/-! ## Fove SDK and engine data types -/

/-- Fove SDK `SFVR_Vec3`. -/
structure SFVR_Vec3 where
  x : ℚ
  y : ℚ
  z : ℚ
  deriving DecidableEq, Repr

/-- Fove SDK `SFVR_Vec2i`. -/
structure SFVR_Vec2i where
  x : Int
  y : Int
  deriving DecidableEq, Repr

/-- Fove SDK `SFVR_Quaternion`. -/
structure SFVR_Quaternion where
  x : ℚ
  y : ℚ
  z : ℚ
  w : ℚ
  deriving DecidableEq, Repr

/-- Fove SDK `SFVR_Matrix44`: `mat[i][j]`. -/
structure SFVR_Matrix44 where
  mat : Fin 4 → Fin 4 → ℚ

/-- Fove SDK `SFVR_CompositorLayer`, with the members the plugin reads. -/
structure SFVR_CompositorLayer where
  layerId : Int
  idealResolutionPerEye : SFVR_Vec2i
  deriving DecidableEq, Repr

/-- Fove SDK `EFVR_ErrorCode`: `None` is success, every other code is a failure. -/
inductive EFVR_ErrorCode where
  | None
  | Failure (code : Nat)
  deriving DecidableEq, Repr

/-- Fove SDK `EFVR_Eye`. -/
inductive EFVR_Eye where
  | Neither
  | Left
  | Right
  | Both
  deriving DecidableEq, Repr

/-- Fove SDK `SFVR_Pose`, with the members the plugin reads. -/
structure SFVR_Pose where
  orientation : SFVR_Quaternion
  position : SFVR_Vec3
  deriving DecidableEq, Repr

/-- Fove SDK `SFVR_GazeVector`, with the member the plugin reads. -/
structure SFVR_GazeVector where
  vector : SFVR_Vec3
  deriving DecidableEq, Repr

/-- Fove SDK `SFVR_Ray`. -/
structure SFVR_Ray where
  origin : SFVR_Vec3
  direction : SFVR_Vec3
  deriving DecidableEq, Repr

/-- Fove SDK `SFVR_GazeConvergenceData`. -/
structure SFVR_GazeConvergenceData where
  ray : SFVR_Ray
  distance : ℚ
  accuracy : ℚ
  deriving DecidableEq, Repr

/-- Unreal `FVector`. -/
structure FVector where
  X : ℚ
  Y : ℚ
  Z : ℚ
  deriving DecidableEq, Repr

/-- Unreal `FVector2D`. -/
structure FVector2D where
  X : ℚ
  Y : ℚ
  deriving DecidableEq, Repr

/-- Unreal `FQuat`, constructed as `FQuat(X, Y, Z, W)`. -/
structure FQuat where
  X : ℚ
  Y : ℚ
  Z : ℚ
  W : ℚ
  deriving DecidableEq, Repr

/-- Unreal `FPlane(X, Y, Z, W)`: one row of an `FMatrix`. -/
structure FPlane where
  X : ℚ
  Y : ℚ
  Z : ℚ
  W : ℚ
  deriving DecidableEq, Repr

/-- Unreal `FMatrix`: `M[i][j]`. -/
structure FMatrix where
  M : Fin 4 → Fin 4 → ℚ

/-- The component of a plane at a column index (`X`, `Y`, `Z`, `W` in order). -/
def FPlane.component (p : FPlane) (j : Fin 4) : ℚ :=
  match j with
  | 0 => p.X
  | 1 => p.Y
  | 2 => p.Z
  | 3 => p.W

/-- Unreal `FMatrix(InX, InY, InZ, InW)`: the four planes are the four rows. -/
def FMatrix.ofPlanes (InX InY InZ InW : FPlane) : FMatrix :=
  { M := fun i j =>
      match i with
      | 0 => InX.component j
      | 1 => InY.component j
      | 2 => InZ.component j
      | 3 => InW.component j }

/-- The assignment `Ret.M[i][j] = v`. -/
def FMatrix.assign (m : FMatrix) (i j : Fin 4) (v : ℚ) : FMatrix :=
  { M := fun i' j' => if i' = i ∧ j' = j then v else m.M i' j' }

/-- Unreal `EStereoscopicPass`. -/
inductive EStereoscopicPass where
  | eSSP_FULL
  | eSSP_LEFT_EYE
  | eSSP_RIGHT_EYE
  deriving DecidableEq, Repr

/-- Unreal `IHeadMountedDisplay::MonitorInfo`. -/
structure MonitorInfo where
  MonitorName : String
  MonitorId : Nat
  DesktopX : Int
  DesktopY : Int
  ResolutionX : Int
  ResolutionY : Int
  WindowSizeX : Int
  WindowSizeY : Int
  deriving DecidableEq, Repr

/-! ## Machine integers -/

/-- Reduction of an integer to the `int32` range (two's complement wrap). -/
def wrapInt32 (v : Int) : Int :=
  (v + 2147483648) % 4294967296 - 2147483648

/-- Conversion of an integer to `uint32`. -/
def toUInt32 (v : Int) : Nat :=
  (v % 4294967296).toNat

/-- Conversion of a float to `uint32`: truncation toward zero, then reduction. -/
def floatToUInt32 (v : ℚ) : Nat :=
  toUInt32 (if 0 ≤ v then v.floor else -((-v).floor))

/-! ## Engine objects touched by the stereo state machine -/

/-- Slate `SWindow`, with the members `EnableStereo` reads and writes. -/
structure SWindow where
  SizeInScreen : FVector2D
  bViewportSizeDrivenByWindow : Bool
  deriving DecidableEq, Repr

/-- Unreal `FSceneViewport`: its size and the window `FindWindow()` returns
(`none` when the returned pointer is not valid). -/
structure FSceneViewport where
  SizeX : Nat
  SizeY : Nat
  Window : Option SWindow
  deriving DecidableEq, Repr

/-- The call `sceneVP->SetViewportSize(NewSizeX, NewSizeY)`. -/
def FSceneViewport.SetViewportSize (vp : FSceneViewport) (NewSizeX NewSizeY : Nat) :
    FSceneViewport :=
  { vp with SizeX := NewSizeX, SizeY := NewSizeY }

/-- The call `window->SetViewportSizeDrivenByWindow(b)` on the viewport's window. -/
def FSceneViewport.SetViewportSizeDrivenByWindow (vp : FSceneViewport) (b : Bool) :
    FSceneViewport :=
  { vp with Window := vp.Window.map fun w => { w with bViewportSizeDrivenByWindow := b } }

/-- The engine globals the state machine touches: the scene viewport that
`FoveFindSceneViewport` resolves to (`none` when it returns `nullptr`) and
`GEngine->bForceDisableFrameRateSmoothing`. -/
structure Engine where
  SceneViewport : Option FSceneViewport
  bForceDisableFrameRateSmoothing : Bool
  deriving DecidableEq, Repr

/-- Helper `FoveFindSceneViewport()`. -/
def FoveFindSceneViewport (e : Engine) : Option FSceneViewport :=
  e.SceneViewport

/-- The size of the scene viewport, when there is one. -/
def Engine.viewportSize (e : Engine) : Option (Nat × Nat) :=
  e.SceneViewport.map fun vp => (vp.SizeX, vp.SizeY)

/-! ## The headset interface -/

/-- The part of `Fove::IFVRHeadset` used here. `GetProjectionMatricesLH near far`
answers with an error code and the left and right matrices it would write through
its non-null out-pointers. `ManualDriftCorrection3D` answers with an error code.
`GetHMDPose`, `GetGazeVectors` (left and right gaze) and `GetGazeConvergence` answer
with an error code and the values they would write through their non-null
out-pointers; each member function below queries each of them at most once, so one
answer per query stands for the sample taken during that call. `GetIOD`,
`CheckEyesTracked`, `CheckEyesClosed` and `IsEyeTrackingCalibrating` answer with an
error code and the value they write through their out-pointer, `none` when they
write nothing and the caller's initial value stays. `EnsureEyeTrackingCalibration`
answers with an error code. -/
structure IFVRHeadset where
  GetProjectionMatricesLH : ℚ → ℚ → EFVR_ErrorCode × SFVR_Matrix44 × SFVR_Matrix44
  ManualDriftCorrection3D : SFVR_Vec3 → EFVR_ErrorCode
  GetHMDPose : EFVR_ErrorCode × SFVR_Pose
  GetGazeVectors : EFVR_ErrorCode × SFVR_GazeVector × SFVR_GazeVector
  GetGazeConvergence : EFVR_ErrorCode × SFVR_GazeConvergenceData
  GetIOD : EFVR_ErrorCode × Option ℚ
  CheckEyesTracked : EFVR_ErrorCode × Option EFVR_Eye
  CheckEyesClosed : EFVR_ErrorCode × Option EFVR_Eye
  IsEyeTrackingCalibrating : EFVR_ErrorCode × Option Bool
  EnsureEyeTrackingCalibration : EFVR_ErrorCode

/-! ## FFoveHMD -/

/-- The data members of `FFoveHMD` that the modelled member functions use. -/
structure FFoveHMD where
  WorldToMetersScale : ℚ
  ZNear : ℚ
  ZFar : ℚ
  FoveCompositorLayer : SFVR_CompositorLayer
  bHmdEnabled : Bool
  bStereoEnabled : Bool
  deriving DecidableEq, Repr

/-- The constructor `FFoveHMD::FFoveHMD`: both clip planes start at
`GNearClippingPlane`; the remaining members take their in-class initialisers. -/
def FFoveHMD.construct (GNearClippingPlane : ℚ) (layer : SFVR_CompositorLayer) : FFoveHMD :=
  { WorldToMetersScale := 1
    ZNear := GNearClippingPlane
    ZFar := GNearClippingPlane
    FoveCompositorLayer := layer
    bHmdEnabled := true
    bStereoEnabled := false }

/-- Member function `FFoveHMD::IsHMDEnabled`. -/
def IsHMDEnabled (s : FFoveHMD) : Bool :=
  s.bHmdEnabled

/-- Member function `FFoveHMD::GetHMDMonitorInfo`: every member of `outInfo` is overwritten. -/
def GetHMDMonitorInfo (s : FFoveHMD) : Bool × MonitorInfo :=
  let ResolutionX := wrapInt32 (s.FoveCompositorLayer.idealResolutionPerEye.x * 2)
  let ResolutionY := s.FoveCompositorLayer.idealResolutionPerEye.y
  (true,
    { MonitorName := ""
      MonitorId := 0
      DesktopX := 0
      DesktopY := 0
      ResolutionX := ResolutionX
      ResolutionY := ResolutionY
      WindowSizeX := ResolutionX
      WindowSizeY := ResolutionY })

/-- Member function `FFoveHMD::IsStereoEnabled`. -/
def IsStereoEnabled (s : FFoveHMD) : Except Fault Bool := do
  check (!s.bStereoEnabled || s.bHmdEnabled)
  pure s.bStereoEnabled

/-- The "Edit scene viewport" block of `FFoveHMD::EnableStereo`. -/
def EnableStereo.editSceneViewport (s : FFoveHMD) (e : Engine) (enable : Bool) : Engine :=
  match FoveFindSceneViewport e with
  | some sceneVP =>
    let window := sceneVP.Window
    let sceneVP1 :=
      if enable then
        let info := GetHMDMonitorInfo s
        if info.1 then
          sceneVP.SetViewportSize (toUInt32 info.2.ResolutionX) (toUInt32 info.2.ResolutionY)
        else sceneVP
      else
        match window with
        | some w =>
          sceneVP.SetViewportSize (floatToUInt32 w.SizeInScreen.X)
            (floatToUInt32 w.SizeInScreen.Y)
        | none => sceneVP
    let sceneVP2 :=
      if window.isSome then sceneVP1.SetViewportSizeDrivenByWindow (!enable) else sceneVP1
    { e with SceneViewport := some sceneVP2 }
  | none => e

/-- Member function `FFoveHMD::EnableStereo`: the returned value with the updated object and engine. -/
def EnableStereo (s : FFoveHMD) (e : Engine) (enable : Bool) :
    Except Fault (Bool × FFoveHMD × Engine) :=
  if enable = s.bStereoEnabled then
    .ok (enable, s, e)
  else if !s.bHmdEnabled then do
    check (!s.bStereoEnabled)
    pure (false, s, e)
  else
    let e1 := EnableStereo.editSceneViewport s e enable
    let e2 := { e1 with bForceDisableFrameRateSmoothing := enable }
    let s1 := { s with bStereoEnabled := enable }
    .ok (s1.bStereoEnabled, s1, e2)

/-- Member function `FFoveHMD::EnableHMD`. -/
def EnableHMD (s : FFoveHMD) (e : Engine) (enable : Bool) : Except Fault (FFoveHMD × Engine) :=
  if s.bHmdEnabled = enable then
    .ok (s, e)
  else do
    let (s1, e1) ←
      if !enable then do
        let r ← EnableStereo s e false
        pure (r.2.1, r.2.2)
      else pure (s, e)
    pure ({ s1 with bHmdEnabled := enable }, e1)

/-- Member function `FFoveHMD::SetClippingPlanes`. -/
def SetClippingPlanes (s : FFoveHMD) (NCP FCP : ℚ) : FFoveHMD :=
  { s with ZNear := NCP, ZFar := FCP }

/-- The assignment `WorldToMetersScale = InView.WorldToMetersScale` of
`FFoveHMD::SetupView`, its only write to the object. -/
def SetupView (s : FFoveHMD) (InViewWorldToMetersScale : ℚ) : FFoveHMD :=
  { s with WorldToMetersScale := InViewWorldToMetersScale }

/-- A call of one of the state-changing member functions. -/
inductive Call where
  | EnableHMD (enable : Bool)
  | EnableStereo (enable : Bool)
  | SetClippingPlanes (NCP FCP : ℚ)
  | SetupView (InViewWorldToMetersScale : ℚ)
  deriving DecidableEq, Repr

/-- Performing one call on the object and the engine. -/
def Call.perform (c : Call) (st : FFoveHMD × Engine) : Except Fault (FFoveHMD × Engine) :=
  match c with
  | Call.EnableHMD enable => FoveHMD.EnableHMD st.1 st.2 enable
  | Call.EnableStereo enable => do
    let r ← FoveHMD.EnableStereo st.1 st.2 enable
    pure (r.2.1, r.2.2)
  | Call.SetClippingPlanes NCP FCP => .ok (FoveHMD.SetClippingPlanes st.1 NCP FCP, st.2)
  | Call.SetupView w => .ok (FoveHMD.SetupView st.1 w, st.2)

/-- Performing a finite sequence of calls, first to last. -/
def runCalls (cs : List Call) (st : FFoveHMD × Engine) : Except Fault (FFoveHMD × Engine) :=
  match cs with
  | [] => .ok st
  | c :: rest => do
    let st1 ← c.perform st
    runCalls rest st1

/-- A state is reachable when some finite sequence of calls leads to it from a
freshly constructed object. -/
def Reachable (s : FFoveHMD) : Prop :=
  ∃ (g : ℚ) (layer : SFVR_CompositorLayer) (e0 e : Engine) (cs : List Call),
    runCalls cs (FFoveHMD.construct g layer, e0) = .ok (s, e)

/-- The coupling invariant of the two flags. -/
def StereoImpliesHmd (s : FFoveHMD) : Prop :=
  s.bStereoEnabled = true → s.bHmdEnabled = true

/-! ## Coordinate conversion -/

/-- Conversion `ToUnreal(const Fove::SFVR_Matrix44&)`. -/
def SFVR_Matrix44.ToUnreal (tm : SFVR_Matrix44) : FMatrix :=
  FMatrix.ofPlanes
    ⟨tm.mat 0 0, tm.mat 1 0, tm.mat 2 0, tm.mat 3 0⟩
    ⟨tm.mat 0 1, tm.mat 1 1, tm.mat 2 1, tm.mat 3 1⟩
    ⟨tm.mat 0 2, tm.mat 1 2, tm.mat 2 2, tm.mat 3 2⟩
    ⟨tm.mat 0 3, tm.mat 1 3, tm.mat 2 3, tm.mat 3 3⟩

/-- Conversion `ToUnreal(const Fove::SFVR_Quaternion)`. -/
def SFVR_Quaternion.ToUnreal (quat : SFVR_Quaternion) : FQuat :=
  ⟨quat.z, quat.x, quat.y, quat.w⟩

/-- Conversion `ToUnreal(const Fove::SFVR_Vec3, const float scale)`. -/
def SFVR_Vec3.ToUnreal (vec : SFVR_Vec3) (scale : ℚ) : FVector :=
  ⟨vec.z * scale, vec.x * scale, vec.y * scale⟩

/-- The local `vec` of `FFoveHMD::ManualDriftCorrection3D`: the device vector that
is handed to the headset for a host location. -/
def ManualDriftCorrection3D.vec (s : FFoveHMD) (Location : FVector) : SFVR_Vec3 :=
  ⟨Location.Y / s.WorldToMetersScale, Location.Z / s.WorldToMetersScale,
    Location.X / s.WorldToMetersScale⟩

/-- Member function `FFoveHMD::ManualDriftCorrection3D`. -/
def ManualDriftCorrection3D (s : FFoveHMD) (FoveHeadset : IFVRHeadset) (Location : FVector) :
    Bool :=
  let error := FoveHeadset.ManualDriftCorrection3D (ManualDriftCorrection3D.vec s Location)
  decide (error = EFVR_ErrorCode.None)

/-- Reading the three components of a host vector as a device vector, component by
component; this is what feeding the output of `ToUnreal` back into `ToUnreal` means. -/
def FVector.asVec3 (v : FVector) : SFVR_Vec3 :=
  ⟨v.X, v.Y, v.Z⟩

/-- Reading the three components of a device vector as a host vector, component by
component. -/
def SFVR_Vec3.asFVector (v : SFVR_Vec3) : FVector :=
  ⟨v.x, v.y, v.z⟩

/-! ## Stereo projection matrix -/

/-- Member function `FFoveHMD::PrivStereoProjectionMatrix`. The headset writes the
left matrix into `FoveMat` for the left-eye pass and the right matrix otherwise. -/
def PrivStereoProjectionMatrix (s : FFoveHMD) (FoveHeadset : IFVRHeadset)
    (StereoPass : EStereoscopicPass) : Except Fault FMatrix := do
  let stereo ← IsStereoEnabled s
  check stereo
  let answer := FoveHeadset.GetProjectionMatricesLH s.ZNear s.ZFar
  let FoveMat :=
    if StereoPass = EStereoscopicPass.eSSP_LEFT_EYE then answer.2.1 else answer.2.2
  let Ret := FoveMat.ToUnreal
  let Ret := Ret.assign 3 3 0
  let Ret := Ret.assign 2 3 1
  let m22 ← if s.ZNear = s.ZFar then pure 0 else fdiv s.ZNear (s.ZNear - s.ZFar)
  let Ret := Ret.assign 2 2 m22
  let m32 ←
    if s.ZNear = s.ZFar then pure s.ZNear else fdiv (-s.ZFar * s.ZNear) (s.ZNear - s.ZFar)
  let Ret := Ret.assign 3 2 m32
  pure Ret

/-- Host convention for transforming a homogeneous point `(x, y, z, w)` as a row
vector: component `k` of the result is the sum of `v i * M[i][k]`. -/
def FMatrix.TransformFVector4 (m : FMatrix) (v : Fin 4 → ℚ) (k : Fin 4) : ℚ :=
  v 0 * m.M 0 k + v 1 * m.M 1 k + v 2 * m.M 2 k + v 3 * m.M 3 k

/-- The point `(0, 0, z, 1)` on the view axis. -/
def viewAxisPoint (z : ℚ) (i : Fin 4) : ℚ :=
  match i with
  | 0 => 0
  | 1 => 0
  | 2 => z
  | 3 => 1

/-- Post-divide depth of the view-axis point at distance `z`: the transformed
`z` component over the transformed `w` component. -/
def postDivideDepth (m : FMatrix) (z : ℚ) : ℚ :=
  m.TransformFVector4 (viewAxisPoint z) 2 / m.TransformFVector4 (viewAxisPoint z) 3

/-! ## Quaternion rotation -/

/-- Unreal `FVector::CrossProduct`. -/
def FVector.CrossProduct (A B : FVector) : FVector :=
  ⟨A.Y * B.Z - A.Z * B.Y, A.Z * B.X - A.X * B.Z, A.X * B.Y - A.Y * B.X⟩

/-- Unreal `FQuat::RotateVector`, an engine function the plugin calls: with
`Q = (X, Y, Z)` and `T = 2 (Q × V)`, the result is `V + W T + Q × T`. -/
def FQuat.RotateVector (q : FQuat) (V : FVector) : FVector :=
  let Q : FVector := ⟨q.X, q.Y, q.Z⟩
  let C := FVector.CrossProduct Q V
  let T : FVector := ⟨2 * C.X, 2 * C.Y, 2 * C.Z⟩
  let QT := FVector.CrossProduct Q T
  ⟨V.X + q.W * T.X + QT.X, V.Y + q.W * T.Y + QT.Y, V.Z + q.W * T.Z + QT.Z⟩

/-- Hamilton product of two quaternions given by their components `(x, y, z, w)`. -/
def hamilton (a b : ℚ × ℚ × ℚ × ℚ) : ℚ × ℚ × ℚ × ℚ :=
  (a.2.2.2 * b.1 + a.1 * b.2.2.2 + a.2.1 * b.2.2.1 - a.2.2.1 * b.2.1,
   a.2.2.2 * b.2.1 - a.1 * b.2.2.1 + a.2.1 * b.2.2.2 + a.2.2.1 * b.1,
   a.2.2.2 * b.2.2.1 + a.1 * b.2.1 - a.2.1 * b.1 + a.2.2.1 * b.2.2.2,
   a.2.2.2 * b.2.2.2 - a.1 * b.1 - a.2.1 * b.2.1 - a.2.2.1 * b.2.2.1)

/-- Squared norm of a quaternion given by its components. -/
def quatNormSq (a : ℚ × ℚ × ℚ × ℚ) : ℚ :=
  a.1 * a.1 + a.2.1 * a.2.1 + a.2.2.1 * a.2.2.1 + a.2.2.2 * a.2.2.2

/-- Inverse of a quaternion: the conjugate over the squared norm. -/
def quatInverse (a : ℚ × ℚ × ℚ × ℚ) : ℚ × ℚ × ℚ × ℚ :=
  (-a.1 / quatNormSq a, -a.2.1 / quatNormSq a, -a.2.2.1 / quatNormSq a,
    a.2.2.2 / quatNormSq a)

/-- The standard rotation of a vector by a quaternion: the vector part of
`q v q⁻¹`, with `v` read as the pure quaternion `(v, 0)`. -/
def quatRotate (q : ℚ × ℚ × ℚ × ℚ) (v : ℚ × ℚ × ℚ) : ℚ × ℚ × ℚ :=
  let r := hamilton (hamilton q (v.1, v.2.1, v.2.2, 0)) (quatInverse q)
  (r.1, r.2.1, r.2.2.1)

/-- Components `(x, y, z, w)` of a device quaternion. -/
def SFVR_Quaternion.components (q : SFVR_Quaternion) : ℚ × ℚ × ℚ × ℚ :=
  (q.x, q.y, q.z, q.w)

/-- Components `(X, Y, Z, W)` of a host quaternion. -/
def FQuat.components (q : FQuat) : ℚ × ℚ × ℚ × ℚ :=
  (q.X, q.Y, q.Z, q.W)

/-- Standard rotation `q v q⁻¹` of a device vector by a device quaternion. -/
def SFVR_Quaternion.rotate (q : SFVR_Quaternion) (v : SFVR_Vec3) : SFVR_Vec3 :=
  let r := quatRotate q.components (v.x, v.y, v.z)
  ⟨r.1, r.2.1, r.2.2⟩

/-- Standard rotation `q v q⁻¹` of a host vector by a host quaternion. -/
def FQuat.rotate (q : FQuat) (v : FVector) : FVector :=
  let r := quatRotate q.components (v.X, v.Y, v.Z)
  ⟨r.1, r.2.1, r.2.2⟩

/-- Reading a host matrix as a device matrix, entry by entry; this is what applying
the matrix `ToUnreal` to its own output means. -/
def FMatrix.asMatrix44 (m : FMatrix) : SFVR_Matrix44 :=
  { mat := m.M }

/-! ## Gaze queries -/

/-- The values `FFoveHMD::GetGazeConvergence` returns and leaves behind its four
out-pointers (`none` for a null pointer). -/
structure GazeConvergenceResult where
  ret : Bool
  outRayOrigin : Option FVector
  outRayDirection : Option FVector
  outDistance : Option ℚ
  outAccuracy : Option ℚ
  deriving DecidableEq, Repr

/-- Member function `FFoveHMD::GetGazeConvergence`. An out-pointer is `none` when
null and otherwise holds the value stored behind it; `uninit` is the indeterminate
value of the local `HMDOrientation` before any assignment. -/
def GetGazeConvergence (s : FFoveHMD) (FoveHeadset : IFVRHeadset) (uninit : FQuat)
    (bRelativeToHMD : Bool) (outRayOrigin outRayDirection : Option FVector)
    (outDistance outAccuracy : Option ℚ) : GazeConvergenceResult :=
  let unchanged : GazeConvergenceResult :=
    ⟨false, outRayOrigin, outRayDirection, outDistance, outAccuracy⟩
  if bRelativeToHMD ∧ FoveHeadset.GetHMDPose.1 ≠ EFVR_ErrorCode.None then unchanged
  else
    let HMDOrientation :=
      if bRelativeToHMD then FoveHeadset.GetHMDPose.2.orientation.ToUnreal else uninit
    let Error := FoveHeadset.GetGazeConvergence.1
    let convergence := FoveHeadset.GetGazeConvergence.2
    if Error ≠ EFVR_ErrorCode.None then unchanged
    else
      let origin := convergence.ray.origin.ToUnreal s.WorldToMetersScale
      let direction := convergence.ray.direction.ToUnreal 1
      { ret := true
        outRayOrigin := outRayOrigin.map fun _ =>
          if bRelativeToHMD then HMDOrientation.RotateVector origin else origin
        outRayDirection := outRayDirection.map fun _ =>
          if bRelativeToHMD then HMDOrientation.RotateVector direction else direction
        outDistance := outDistance.map fun _ => s.WorldToMetersScale * convergence.distance
        outAccuracy := outAccuracy.map fun _ => convergence.accuracy }

/-- Member function `FFoveHMD::GetGazeVector`: the returned value and the contents
of the two out-pointers afterwards. `uninit` is the indeterminate value of the local
`HMDOrientation` before any assignment. -/
def GetGazeVector (_s : FFoveHMD) (FoveHeadset : IFVRHeadset) (uninit : FQuat)
    (bRelativeToHMD : Bool) (outLeft outRight : Option FVector) :
    Bool × Option FVector × Option FVector :=
  if bRelativeToHMD ∧ FoveHeadset.GetHMDPose.1 ≠ EFVR_ErrorCode.None then
    (false, outLeft, outRight)
  else
    let HMDOrientation :=
      if bRelativeToHMD then FoveHeadset.GetHMDPose.2.orientation.ToUnreal else uninit
    let error := FoveHeadset.GetGazeVectors.1
    let lGaze := FoveHeadset.GetGazeVectors.2.1
    let rGaze := FoveHeadset.GetGazeVectors.2.2
    if error ≠ EFVR_ErrorCode.None then (false, outLeft, outRight)
    else
      (true,
        outLeft.map (fun _ =>
          if !bRelativeToHMD then HMDOrientation.RotateVector (lGaze.vector.ToUnreal 1)
          else lGaze.vector.ToUnreal 1),
        outRight.map (fun _ =>
          if !bRelativeToHMD then HMDOrientation.RotateVector (rGaze.vector.ToUnreal 1)
          else rGaze.vector.ToUnreal 1))

/-- The local `projX` of the lambda `Compute2DGaze`. -/
def Compute2DGaze.projX (proj : SFVR_Matrix44) (gaze : SFVR_Vec3) : ℚ :=
  proj.mat 0 0 * gaze.x + proj.mat 1 0 * gaze.y + proj.mat 2 0 * gaze.z + proj.mat 3 0

/-- The local `projY` of the lambda `Compute2DGaze`. -/
def Compute2DGaze.projY (proj : SFVR_Matrix44) (gaze : SFVR_Vec3) : ℚ :=
  proj.mat 0 1 * gaze.x + proj.mat 1 1 * gaze.y + proj.mat 2 1 * gaze.z + proj.mat 3 1

/-- The local `projW` of the lambda `Compute2DGaze`. -/
def Compute2DGaze.projW (proj : SFVR_Matrix44) (gaze : SFVR_Vec3) : ℚ :=
  proj.mat 0 3 * gaze.x + proj.mat 1 3 * gaze.y + proj.mat 2 3 * gaze.z + proj.mat 3 3

/-- The dot product of the homogeneous gaze `(gaze, 1)` with column `k` of a device
matrix. -/
def dotColumn (proj : SFVR_Matrix44) (gaze : SFVR_Vec3) (k : Fin 4) : ℚ :=
  gaze.x * proj.mat 0 k + gaze.y * proj.mat 1 k + gaze.z * proj.mat 2 k + 1 * proj.mat 3 k

/-- The lambda `Compute2DGaze` of `FFoveHMD::GetGazeVector2D`: its return value and
the point it writes to `out`. -/
def Compute2DGaze (proj : SFVR_Matrix44) (gaze : SFVR_Vec3) : Except Fault (Bool × FVector2D) := do
  let x ← fdiv (Compute2DGaze.projX proj gaze) (Compute2DGaze.projW proj gaze)
  let y ← fdiv (Compute2DGaze.projY proj gaze) (Compute2DGaze.projW proj gaze)
  pure (true, ⟨x, y⟩)

/-- Member function `FFoveHMD::GetGazeVector2D`: the returned value and the contents
of the two out-pointers afterwards (`none` for a null pointer). -/
def GetGazeVector2D (_s : FFoveHMD) (FoveHeadset : IFVRHeadset)
    (outLeft outRight : Option FVector2D) :
    Except Fault (Bool × Option FVector2D × Option FVector2D) :=
  let projAnswer := FoveHeadset.GetProjectionMatricesLH (1 / 100) 1000
  if projAnswer.1 ≠ EFVR_ErrorCode.None then .ok (false, outLeft, outRight)
  else
    let gazeAnswer := FoveHeadset.GetGazeVectors
    if gazeAnswer.1 ≠ EFVR_ErrorCode.None then .ok (false, outLeft, outRight)
    else do
      let left ← match outLeft with
        | some _ => do
          let r ← Compute2DGaze projAnswer.2.1 gazeAnswer.2.1.vector
          pure (some r)
        | none => pure none
      if (left.map fun r => !r.1) = some true then
        pure (false, outLeft, outRight)
      else do
        let right ← match outRight with
          | some _ => do
            let r ← Compute2DGaze projAnswer.2.2 gazeAnswer.2.2.vector
            pure (some r)
          | none => pure none
        if (right.map fun r => !r.1) = some true then
          pure (false, outLeft, outRight)
        else
          pure (true, left.map (fun r => r.2), right.map (fun r => r.2))

/-! ## The rendering bridge -/

/-- Unreal `FTransform(Rotation, Translation)`, with unit scale. -/
structure FTransform where
  Rotation : FQuat
  Translation : FVector
  deriving DecidableEq, Repr

/-- Conversion `ToUnreal(const Fove::SFVR_Pose&, const float scale)`. -/
def SFVR_Pose.ToUnreal (pose : SFVR_Pose) (scale : ℚ) : FTransform :=
  let FoveOrientation := pose.orientation.ToUnreal
  let FovePosition := pose.position.ToUnreal scale
  ⟨FoveOrientation, FovePosition⟩

/-- Fove SDK `SFVR_TextureBounds`. -/
structure SFVR_TextureBounds where
  left : ℚ
  top : ℚ
  right : ℚ
  bottom : ℚ
  deriving DecidableEq, Repr

/-- Fove SDK `SFVR_CompositorLayerEyeSubmitInfo`; `texInfo` is a texture pointer
(`none` for null). -/
structure SFVR_CompositorLayerEyeSubmitInfo where
  texInfo : Option Nat
  bounds : SFVR_TextureBounds
  deriving DecidableEq, Repr

/-- Fove SDK `SFVR_CompositorLayerSubmitInfo`. -/
structure SFVR_CompositorLayerSubmitInfo where
  layerId : Int
  pose : SFVR_Pose
  left : SFVR_CompositorLayerEyeSubmitInfo
  right : SFVR_CompositorLayerEyeSubmitInfo
  deriving DecidableEq, Repr

/-- The Direct3D objects `Present` reaches through the render-target texture:
whether `GetDevice` yields a device, whether that device yields an immediate
context, and the rasterizer state bound on the context (`none` for null). -/
structure D3D11 where
  Dev : Bool
  Ctx : Bool
  RasterizerState : Option Nat
  deriving DecidableEq, Repr

/-- Unreal `FViewport`, reduced to its render-target texture reference: `none` for
a null reference, otherwise the native resource pointer of the texture (`none` for
a null pointer). -/
structure FViewport where
  RenderTargetTexture : Option (Option Nat)
  deriving DecidableEq, Repr

/-- The data members of `FoveD3D11Bridge`, those inherited from
`FoveRenderingBridge` included. `RenderTargetTexture` is `none` for null. COM
reference counting (`AddRef`/`Release`) is not modelled. -/
structure FoveD3D11Bridge where
  FovePose : SFVR_Pose
  Pose : FTransform
  RenderTargetTexture : Option Nat
  FoveCompositorLayer : SFVR_CompositorLayer
  deriving DecidableEq, Repr

/-- The constructor of `FoveD3D11Bridge`: no render target yet. The two poses are
not initialised by the constructor; their initial values are parameters. -/
def FoveD3D11Bridge.construct (Layer : SFVR_CompositorLayer) (FovePose : SFVR_Pose)
    (Pose : FTransform) : FoveD3D11Bridge :=
  { FovePose := FovePose, Pose := Pose, RenderTargetTexture := none, FoveCompositorLayer := Layer }

/-- Member function `FoveRenderingBridge::SetRenderPose`. -/
def FoveD3D11Bridge.SetRenderPose (b : FoveD3D11Bridge) (pose : SFVR_Pose)
    (WorldToMetersScale : ℚ) : FoveD3D11Bridge :=
  let b1 := { b with FovePose := pose }
  { b1 with Pose := b1.FovePose.ToUnreal WorldToMetersScale }

/-- Member function `FoveRenderingBridge::GetRenderPose`. -/
def FoveD3D11Bridge.GetRenderPose (b : FoveD3D11Bridge) : FTransform :=
  b.Pose

/-- Member function `FoveD3D11Bridge::UpdateViewport`. -/
def FoveD3D11Bridge.UpdateViewport (b : FoveD3D11Bridge) (IsInGameThread : Bool)
    (Viewport : FViewport) : Except Fault FoveD3D11Bridge := do
  check IsInGameThread
  let newRT : Option Nat :=
    match Viewport.RenderTargetTexture with
    | some textureRef => textureRef
    | none => none
  if newRT ≠ b.RenderTargetTexture then
    pure { b with RenderTargetTexture := newRT }
  else
    pure b

/-- The submit info `FoveD3D11Bridge::Present` fills in. -/
def FoveD3D11Bridge.submitInfo (b : FoveD3D11Bridge) : SFVR_CompositorLayerSubmitInfo :=
  { layerId := b.FoveCompositorLayer.layerId
    pose := b.FovePose
    left := { texInfo := b.RenderTargetTexture
              bounds := { left := 0, right := 1 / 2, bottom := 1, top := 0 } }
    right := { texInfo := b.RenderTargetTexture
               bounds := { left := 1 / 2, right := 1, bottom := 1, top := 0 } } }

/-- Member function `FoveD3D11Bridge::Present`: the returned value, the list of
frames the compositor has been handed through `Submit` (oldest first) and the
Direct3D state afterwards. -/
def FoveD3D11Bridge.Present (b : FoveD3D11Bridge) (IsInRenderingThread : Bool)
    (submitted : List SFVR_CompositorLayerSubmitInfo) (d3d : D3D11) :
    Except Fault (Bool × List SFVR_CompositorLayerSubmitInfo × D3D11) := do
  check IsInRenderingThread
  if b.RenderTargetTexture.isNone then
    pure (false, submitted, d3d)
  else
    let haveCtx := d3d.Dev && d3d.Ctx
    let RasterizerState := if haveCtx then d3d.RasterizerState else none
    let d3d1 := if haveCtx then { d3d with RasterizerState := none } else d3d
    let submitted1 := submitted ++ [b.submitInfo]
    let d3d2 := if haveCtx then { d3d1 with RasterizerState := RasterizerState } else d3d1
    pure (true, submitted1, d3d2)

/-- The values `FFoveHMD::PreRenderViewFamily_RenderThread` leaves behind: the
bridge, the number of `WaitForRenderPose` calls the compositor has received, and
the two poses handed to `ApplyLateUpdate` when it is called. -/
structure PreRenderResult where
  Bridge : Option FoveD3D11Bridge
  waits : Nat
  lateUpdate : Option (FTransform × FTransform)
  deriving DecidableEq, Repr

/-- Member function `FFoveHMD::PreRenderViewFamily_RenderThread` (engine versions
before 4.18, the only ones the plugin accepts). `Bridge` is `none` for a null
bridge; `WaitForRenderPose n` is the compositor's answer to its wait number `n`
(error code and the pose it writes) and `waits` counts the waits made so far. -/
def PreRenderViewFamily_RenderThread (s : FFoveHMD) (Bridge : Option FoveD3D11Bridge)
    (IsInRenderingThread : Bool) (WaitForRenderPose : Nat → EFVR_ErrorCode × SFVR_Pose)
    (waits : Nat) : Except Fault PreRenderResult := do
  check IsInRenderingThread
  match Bridge with
  | some b =>
    let Error := (WaitForRenderPose waits).1
    let FovePose := (WaitForRenderPose waits).2
    if Error ≠ EFVR_ErrorCode.None then
      pure { Bridge := some b, waits := waits + 1, lateUpdate := none }
    else
      let LastPose := b.GetRenderPose
      let b1 := b.SetRenderPose FovePose s.WorldToMetersScale
      let NewPose := b1.GetRenderPose
      pure { Bridge := some b1, waits := waits + 1, lateUpdate := some (LastPose, NewPose) }
  | none => pure { Bridge := none, waits := waits, lateUpdate := none }

/-! ## Eye state queries and the function library -/

/-- Member function `FFoveHMD::CheckEyesTracked`: the returned value and the
contents of the two out-pointers afterwards (`none` for a null pointer). -/
def CheckEyesTracked (FoveHeadset : IFVRHeadset) (outLeft outRight : Option Bool) :
    Bool × Option Bool × Option Bool :=
  let eye := FoveHeadset.CheckEyesTracked.2.getD EFVR_Eye.Neither
  let Error := FoveHeadset.CheckEyesTracked.1
  if Error ≠ EFVR_ErrorCode.None then (false, outLeft, outRight)
  else
    (true,
      outLeft.map (fun v => if eye = EFVR_Eye.Both ∨ eye = EFVR_Eye.Left then true else v),
      outRight.map (fun v => if eye = EFVR_Eye.Both ∨ eye = EFVR_Eye.Right then true else v))

/-- Member function `FFoveHMD::CheckEyesClosed`: the returned value and the
contents of the two out-pointers afterwards (`none` for a null pointer). -/
def CheckEyesClosed (FoveHeadset : IFVRHeadset) (outLeft outRight : Option Bool) :
    Bool × Option Bool × Option Bool :=
  let eye := FoveHeadset.CheckEyesClosed.2.getD EFVR_Eye.Neither
  let Error := FoveHeadset.CheckEyesClosed.1
  if Error ≠ EFVR_ErrorCode.None then (false, outLeft, outRight)
  else
    (true,
      outLeft.map (fun v => if eye = EFVR_Eye.Both ∨ eye = EFVR_Eye.Left then true else v),
      outRight.map (fun v => if eye = EFVR_Eye.Both ∨ eye = EFVR_Eye.Right then true else v))

/-- Member function `FFoveHMD::IsEyeTrackingCalibrating`: `Ret` starts as false and
is returned whatever the error code. -/
def IsEyeTrackingCalibrating (FoveHeadset : IFVRHeadset) : Bool :=
  FoveHeadset.IsEyeTrackingCalibrating.2.getD false

/-- Member function `FFoveHMD::EnsureEyeTrackingCalibration`: the returned value and
the number of `EnsureEyeTrackingCalibration` requests sent to the headset. -/
def EnsureEyeTrackingCalibration (FoveHeadset : IFVRHeadset) : Bool × Nat :=
  (decide (FoveHeadset.EnsureEyeTrackingCalibration = EFVR_ErrorCode.None), 1)

/-- Library function `UFoveVRFunctionLibrary::IsEyeTrackingCalibrating`: the
returned value and the number of `EnsureEyeTrackingCalibration` requests sent to
the headset. `hmd` is what `FFoveHMD::Get()` returns, `none` for null. -/
def UFoveVRFunctionLibrary.IsEyeTrackingCalibrating (hmd : Option (FFoveHMD × IFVRHeadset)) :
    Bool × Nat :=
  match hmd with
  | some _ => (true, 1)
  | none => (false, 0)

/-- Library function `UFoveVRFunctionLibrary::EnsureEyeTrackingCalibration`: the
returned value and the number of `EnsureEyeTrackingCalibration` requests sent to
the headset. -/
def UFoveVRFunctionLibrary.EnsureEyeTrackingCalibration
    (hmd : Option (FFoveHMD × IFVRHeadset)) : Bool × Nat :=
  match hmd with
  | some h => FoveHMD.EnsureEyeTrackingCalibration h.2
  | none => (false, 0)

/-- Library function `UFoveVRFunctionLibrary::CheckEyesTracked`; its outputs are
references, never null. -/
def UFoveVRFunctionLibrary.CheckEyesTracked (hmd : Option (FFoveHMD × IFVRHeadset))
    (outLeft outRight : Bool) : Bool × Option Bool × Option Bool :=
  match hmd with
  | some h => FoveHMD.CheckEyesTracked h.2 (some outLeft) (some outRight)
  | none => (false, some outLeft, some outRight)

/-! ## Stereo view layout -/

/-- Member function `FFoveHMD::GetInterpupillaryDistance`: `Ret` starts as 0.064 and
is returned whatever the error code. -/
def GetInterpupillaryDistance (FoveHeadset : IFVRHeadset) : ℚ :=
  FoveHeadset.GetIOD.2.getD (64 / 1000)

/-- Sum of two host vectors, the `+=` of `FVector`. -/
def FVector.add (A B : FVector) : FVector :=
  ⟨A.X + B.X, A.Y + B.Y, A.Z + B.Z⟩

/-- Member function `FFoveHMD::CalculateStereoViewOffset`: the value of
`ViewLocation` afterwards. `ViewRotationQuaternion` is `ViewRotation.Quaternion()`.
The divisor is the constant -2 or 2, never zero. -/
def CalculateStereoViewOffset (FoveHeadset : IFVRHeadset) (StereoPassType : EStereoscopicPass)
    (ViewRotationQuaternion : FQuat) (WorldToMeters : ℚ) (ViewLocation : FVector) : FVector :=
  if StereoPassType = EStereoscopicPass.eSSP_LEFT_EYE ∨
      StereoPassType = EStereoscopicPass.eSSP_RIGHT_EYE then
    let EyeOffset := GetInterpupillaryDistance FoveHeadset * WorldToMeters /
      (if StereoPassType = EStereoscopicPass.eSSP_LEFT_EYE then -2 else 2)
    ViewLocation.add (ViewRotationQuaternion.RotateVector ⟨0, EyeOffset, 0⟩)
  else ViewLocation

/-- Member function `FFoveHMD::AdjustViewRect`: the values of `X`, `Y`, `SizeX` and
`SizeY` afterwards. `X += SizeX` adds an `int32` and a `uint32`: the sum is taken
in `uint32` and converted back to `int32`. -/
def AdjustViewRect (StereoPass : EStereoscopicPass) (X Y : Int) (SizeX SizeY : Nat) :
    Int × Int × Nat × Nat :=
  let SizeX1 := SizeX / 2
  let X1 :=
    if StereoPass = EStereoscopicPass.eSSP_RIGHT_EYE then
      wrapInt32 (((toUInt32 X + SizeX1) % 4294967296 : Nat) : Int)
    else X
  (X1, Y, SizeX1, SizeY)

/-- Squared length of a host vector. -/
def FVector.SizeSquared (v : FVector) : ℚ :=
  v.X * v.X + v.Y * v.Y + v.Z * v.Z

/-- Squared length of a device vector. -/
def SFVR_Vec3.lengthSquared (v : SFVR_Vec3) : ℚ :=
  v.x * v.x + v.y * v.y + v.z * v.z

/-! ## Concrete inputs used by the examples -/

/-- A compositor layer with a 1280 by 1440 per-eye resolution. -/
def sampleLayer : SFVR_CompositorLayer :=
  { layerId := 0, idealResolutionPerEye := { x := 1280, y := 1440 } }

/-- An engine without a scene viewport. -/
def bareEngine : Engine :=
  { SceneViewport := none, bForceDisableFrameRateSmoothing := false }

/-- A freshly constructed object with `GNearClippingPlane = 10`. -/
def freshHMD : FFoveHMD :=
  FFoveHMD.construct 10 sampleLayer

/-- The fresh object after `EnableStereo(true)`. -/
def stereoHMD : FFoveHMD :=
  { freshHMD with bStereoEnabled := true }

/-- The identity matrix in device layout. -/
def identityMatrix44 : SFVR_Matrix44 :=
  { mat := fun i j => if i = j then 1 else 0 }

/-- A headset that always succeeds and answers with identity matrices. -/
def sampleHeadset : IFVRHeadset :=
  { GetProjectionMatricesLH := fun _ _ => (EFVR_ErrorCode.None, identityMatrix44, identityMatrix44)
    ManualDriftCorrection3D := fun _ => EFVR_ErrorCode.None
    GetHMDPose := (EFVR_ErrorCode.None, ⟨⟨0, 0, 0, 1⟩, ⟨0, 0, 0⟩⟩)
    GetGazeVectors := (EFVR_ErrorCode.None, ⟨⟨0, 0, 1⟩⟩, ⟨⟨0, 0, 1⟩⟩)
    GetGazeConvergence := (EFVR_ErrorCode.None, ⟨⟨⟨0, 0, 0⟩, ⟨0, 0, 1⟩⟩, 1, 1⟩)
    GetIOD := (EFVR_ErrorCode.None, some (63 / 1000))
    CheckEyesTracked := (EFVR_ErrorCode.None, some EFVR_Eye.Both)
    CheckEyesClosed := (EFVR_ErrorCode.None, some EFVR_Eye.Neither)
    IsEyeTrackingCalibrating := (EFVR_ErrorCode.None, some false)
    EnsureEyeTrackingCalibration := EFVR_ErrorCode.None }

/-- A headset whose pose is a half turn about the host's vertical axis (device
quaternion `(0, 1, 0, 0)`, host quaternion `(0, 0, 1, 0)`) and whose convergence
ray starts at `(1, 2, 3)` and points along the device `z` axis. -/
def turnedHeadset : IFVRHeadset :=
  { sampleHeadset with
    GetHMDPose := (EFVR_ErrorCode.None, ⟨⟨0, 1, 0, 0⟩, ⟨0, 0, 0⟩⟩)
    GetGazeConvergence := (EFVR_ErrorCode.None, ⟨⟨⟨1, 2, 3⟩, ⟨0, 0, 1⟩⟩, 5, 1⟩) }

/-- A symmetric perspective projection (all four half-angle tangents 1, near 0.01,
far 1000) laid out so that column `k` holds the coefficients of output `k`, which
is the layout `Compute2DGaze` reads. -/
def symmetricProjection : SFVR_Matrix44 :=
  { mat := fun i j =>
      match i, j with
      | 0, 0 => 1
      | 1, 1 => 1
      | 2, 2 => 100000 / 99999
      | 2, 3 => 1
      | 3, 2 => -1000 / 99999
      | _, _ => 0 }

/-- A headset that answers with the symmetric projection for both eyes and with
the given gaze direction for both eyes. -/
def frustumHeadset (gaze : SFVR_Vec3) : IFVRHeadset :=
  { sampleHeadset with
    GetProjectionMatricesLH := fun _ _ =>
      (EFVR_ErrorCode.None, symmetricProjection, symmetricProjection)
    GetGazeVectors := (EFVR_ErrorCode.None, ⟨gaze⟩, ⟨gaze⟩) }

/-- A bridge that has recorded texture 7 as its render target. -/
def sampleBridge : FoveD3D11Bridge :=
  { FoveD3D11Bridge.construct sampleLayer ⟨⟨0, 0, 0, 1⟩, ⟨0, 0, 0⟩⟩
      ⟨⟨0, 0, 0, 1⟩, ⟨0, 0, 0⟩⟩ with RenderTargetTexture := some 7 }

/-- A Direct3D state with a device, a context and rasterizer state 3 bound. -/
def sampleD3D : D3D11 :=
  { Dev := true, Ctx := true, RasterizerState := some 3 }

/-! ## Lemmas on the stereo state machine -/

theorem IsStereoEnabled_of_inv (s : FFoveHMD) (h : StereoImpliesHmd s) :
    IsStereoEnabled s = .ok s.bStereoEnabled := by
  unfold StereoImpliesHmd at h
  unfold IsStereoEnabled check
  cases hs : s.bStereoEnabled <;> cases hh : s.bHmdEnabled <;> simp_all

theorem EnableStereo_of_inv (s : FFoveHMD) (e : Engine) (enable : Bool)
    (h : StereoImpliesHmd s) :
    ∃ s1 e1, EnableStereo s e enable = .ok (s1.bStereoEnabled, s1, e1) ∧
      StereoImpliesHmd s1 ∧ s1.bHmdEnabled = s.bHmdEnabled ∧
      s1.ZNear = s.ZNear ∧ s1.ZFar = s.ZFar ∧
      (s.bHmdEnabled = true → s1.bStereoEnabled = enable) := by
  unfold StereoImpliesHmd at h
  unfold EnableStereo StereoImpliesHmd
  by_cases h1 : enable = s.bStereoEnabled
  · exact ⟨s, e, by simp [h1], h, rfl, rfl, rfl, fun _ => h1.symm⟩
  · by_cases h2 : s.bHmdEnabled = true
    · refine ⟨{ s with bStereoEnabled := enable },
        { EnableStereo.editSceneViewport s e enable with
          bForceDisableFrameRateSmoothing := enable }, ?_, ?_, rfl, rfl, rfl, fun _ => rfl⟩
      · simp [h1, h2]
      · intro _
        exact h2
    · have h3 : s.bStereoEnabled = false := by
        cases hs : s.bStereoEnabled
        · rfl
        · exact absurd (h hs) h2
      refine ⟨s, e, ?_, h, rfl, rfl, rfl, fun hh => absurd hh h2⟩
      simp only [Bool.not_eq_true] at h2
      simp [h1, h2, h3, check]

theorem EnableHMD_of_inv (s : FFoveHMD) (e : Engine) (enable : Bool)
    (h : StereoImpliesHmd s) :
    ∃ s1 e1, EnableHMD s e enable = .ok (s1, e1) ∧ StereoImpliesHmd s1 ∧
      s1.bHmdEnabled = enable ∧ s1.ZNear = s.ZNear ∧ s1.ZFar = s.ZFar ∧
      (enable = false → s1.bStereoEnabled = false) := by
  unfold EnableHMD
  by_cases h1 : s.bHmdEnabled = enable
  · refine ⟨s, e, by simp [h1], h, h1, rfl, rfl, ?_⟩
    intro he
    cases hs : s.bStereoEnabled
    · rfl
    · have := h hs
      rw [h1, he] at this
      exact absurd this (by decide)
  · cases enable
    · have hh : s.bHmdEnabled = true := by
        cases hb : s.bHmdEnabled
        · exact absurd hb h1
        · rfl
      obtain ⟨s1, e1, hr, _, _, hn, hf, hst⟩ := EnableStereo_of_inv s e false h
      refine ⟨{ s1 with bHmdEnabled := false }, e1, ?_, ?_, rfl, hn, hf, fun _ => hst hh⟩
      · simp [h1, hr]
      · intro hs
        have : s1.bStereoEnabled = false := hst hh
        simp_all
    · refine ⟨{ s with bHmdEnabled := true }, e, ?_, fun _ => rfl, rfl, rfl, rfl, ?_⟩
      · simp [h1]
        rfl
      · intro hc
        exact absurd hc (by decide)

theorem perform_of_inv (c : Call) (s : FFoveHMD) (e : Engine) (h : StereoImpliesHmd s) :
    ∃ s1 e1, c.perform (s, e) = .ok (s1, e1) ∧ StereoImpliesHmd s1 := by
  cases c with
  | EnableHMD enable =>
    obtain ⟨s1, e1, hr, hi, _⟩ := EnableHMD_of_inv s e enable h
    exact ⟨s1, e1, hr, hi⟩
  | EnableStereo enable =>
    obtain ⟨s1, e1, hr, hi, _⟩ := EnableStereo_of_inv s e enable h
    refine ⟨s1, e1, ?_, hi⟩
    simp [Call.perform, hr]
  | SetClippingPlanes n f => exact ⟨_, _, rfl, h⟩
  | SetupView w => exact ⟨_, _, rfl, h⟩

theorem runCalls_of_inv (cs : List Call) (s : FFoveHMD) (e : Engine)
    (h : StereoImpliesHmd s) :
    ∃ s1 e1, runCalls cs (s, e) = .ok (s1, e1) ∧ StereoImpliesHmd s1 := by
  induction cs generalizing s e with
  | nil => exact ⟨s, e, rfl, h⟩
  | cons c rest ih =>
    obtain ⟨s1, e1, hr, hi⟩ := perform_of_inv c s e h
    obtain ⟨s2, e2, hr2, hi2⟩ := ih s1 e1 hi
    refine ⟨s2, e2, ?_, hi2⟩
    simp [runCalls, hr]
    exact hr2

theorem construct_inv (g : ℚ) (layer : SFVR_CompositorLayer) :
    StereoImpliesHmd (FFoveHMD.construct g layer) := by
  intro hs
  rfl

theorem Reachable.inv {s : FFoveHMD} (h : Reachable s) : StereoImpliesHmd s := by
  obtain ⟨g, layer, e0, e, cs, hr⟩ := h
  obtain ⟨s1, e1, hr1, hi⟩ := runCalls_of_inv cs _ e0 (construct_inv g layer)
  rw [hr] at hr1
  cases hr1
  exact hi

/-! ## Claims on the stereo state machine -/

/-- C1: a freshly constructed object has the device flag on and the stereo flag off,
and every finite sequence of calls (`EnableHMD`, `EnableStereo` with any arguments,
also interleaved with `SetClippingPlanes` and `SetupView`) runs to completion without
a failed `check` and ends in a state where `bStereoEnabled` implies `bHmdEnabled`;
in that state the `check` of `IsStereoEnabled` passes and a further `EnableStereo`
or `EnableHMD` call with any argument passes its checks too. -/
theorem stereo_implies_hmd_after_calls (g : ℚ) (layer : SFVR_CompositorLayer)
    (e0 : Engine) (cs : List Call) :
    (FFoveHMD.construct g layer).bHmdEnabled = true ∧
    (FFoveHMD.construct g layer).bStereoEnabled = false ∧
    ∃ s e, runCalls cs (FFoveHMD.construct g layer, e0) = .ok (s, e) ∧
      (s.bStereoEnabled = true → s.bHmdEnabled = true) ∧
      IsStereoEnabled s = .ok s.bStereoEnabled ∧
      (∀ e1 enable, ∃ r, EnableStereo s e1 enable = .ok r) ∧
      (∀ e1 enable, ∃ r, EnableHMD s e1 enable = .ok r) := by
  refine ⟨rfl, rfl, ?_⟩
  obtain ⟨s, e, hr, hi⟩ := runCalls_of_inv cs _ e0 (construct_inv g layer)
  refine ⟨s, e, hr, hi, IsStereoEnabled_of_inv s hi, ?_, ?_⟩
  · intro e1 enable
    obtain ⟨s1, e2, h1, _⟩ := EnableStereo_of_inv s e1 enable hi
    exact ⟨_, h1⟩
  · intro e1 enable
    obtain ⟨s1, e2, h1, _⟩ := EnableHMD_of_inv s e1 enable hi
    exact ⟨_, h1⟩

/-- C2: in every reachable state with `bStereoEnabled` true the device flag is on,
and `EnableHMD(false)` completes and leaves both `bStereoEnabled` and `bHmdEnabled`
false. -/
theorem enableHMD_false_disables_stereo (s : FFoveHMD) (e : Engine)
    (hr : Reachable s) (hs : s.bStereoEnabled = true) :
    s.bHmdEnabled = true ∧
    ∃ s1 e1, EnableHMD s e false = .ok (s1, e1) ∧
      s1.bStereoEnabled = false ∧ s1.bHmdEnabled = false := by
  obtain ⟨s1, e1, h1, _, hh, _, _, hst⟩ := EnableHMD_of_inv s e false hr.inv
  exact ⟨hr.inv hs, s1, e1, h1, hst rfl, hh⟩

/-- Witness for C2: the state reached by `EnableStereo(true)` on a fresh object. -/
theorem enableHMD_false_disables_stereo_witness :
    Reachable stereoHMD ∧ stereoHMD.bStereoEnabled = true ∧ stereoHMD.bHmdEnabled = true ∧
    ∃ s1 e1, EnableHMD stereoHMD bareEngine false = .ok (s1, e1) ∧
      s1.bStereoEnabled = false ∧ s1.bHmdEnabled = false :=
  have hr : Reachable stereoHMD :=
    ⟨10, sampleLayer, bareEngine, { bareEngine with bForceDisableFrameRateSmoothing := true },
      [Call.EnableStereo true], rfl⟩
  ⟨hr, rfl, enableHMD_false_disables_stereo stereoHMD bareEngine hr rfl⟩

/-- C3: in every reachable state in which `bHmdEnabled` is false, `bStereoEnabled`
is false as well, `EnableStereo(true)` returns false and hands back the object and
the engine exactly as they were (so both flags, the viewport size and the
frame-rate-smoothing hint are unchanged), and `IsStereoEnabled()` still reports
false afterwards. -/
theorem enableStereo_refused_when_hmd_disabled (s : FFoveHMD) (e : Engine)
    (hr : Reachable s) (hh : s.bHmdEnabled = false) :
    s.bStereoEnabled = false ∧
    EnableStereo s e true = .ok (false, s, e) ∧
    IsStereoEnabled s = .ok false := by
  have hs : s.bStereoEnabled = false := by
    cases hb : s.bStereoEnabled
    · rfl
    · have := hr.inv hb
      rw [hh] at this
      exact absurd this (by decide)
  refine ⟨hs, ?_, ?_⟩
  · simp [EnableStereo, hh, hs, check]
  · simp [IsStereoEnabled, hs, check]

/-- Witness for C3: the fresh object after `EnableHMD(false)`, which is reachable
and has the device flag off. -/
theorem enableStereo_refused_when_hmd_disabled_witness :
    Reachable { freshHMD with bHmdEnabled := false } ∧
    EnableStereo { freshHMD with bHmdEnabled := false } bareEngine true
        = .ok (false, { freshHMD with bHmdEnabled := false }, bareEngine) ∧
    IsStereoEnabled { freshHMD with bHmdEnabled := false } = .ok false :=
  have hr : Reachable { freshHMD with bHmdEnabled := false } :=
    ⟨10, sampleLayer, bareEngine, bareEngine, [Call.EnableHMD false], rfl⟩
  ⟨hr, (enableStereo_refused_when_hmd_disabled { freshHMD with bHmdEnabled := false }
    bareEngine hr rfl).2⟩

/-- C4: in every reachable state and for every argument, `EnableStereo` completes
and the value it returns is the value of `bStereoEnabled` right after the call,
which is also what `IsStereoEnabled` then reports. -/
theorem enableStereo_returns_resulting_flag (s : FFoveHMD) (e : Engine) (enable : Bool)
    (hr : Reachable s) :
    ∃ ret s1 e1, EnableStereo s e enable = .ok (ret, s1, e1) ∧
      ret = s1.bStereoEnabled ∧ IsStereoEnabled s1 = .ok ret := by
  obtain ⟨s1, e1, h1, hi, _⟩ := EnableStereo_of_inv s e enable hr.inv
  exact ⟨s1.bStereoEnabled, s1, e1, h1, rfl, IsStereoEnabled_of_inv s1 hi⟩

/-- Witness for C4: enabling stereo on a freshly constructed object. -/
theorem enableStereo_returns_resulting_flag_witness :
    Reachable freshHMD ∧
    ∃ ret s1 e1, EnableStereo freshHMD bareEngine true = .ok (ret, s1, e1) ∧
      ret = s1.bStereoEnabled ∧ IsStereoEnabled s1 = .ok ret :=
  have hr : Reachable freshHMD := ⟨10, sampleLayer, bareEngine, bareEngine, [], rfl⟩
  ⟨hr, enableStereo_returns_resulting_flag freshHMD bareEngine true hr⟩

/-- C5: in every state, `EnableHMD(e)` with `e` equal to the current `bHmdEnabled`
returns at once and changes nothing: the object (both flags included) and the
engine (viewport size and frame-rate-smoothing hint included) are as before. -/
theorem enableHMD_same_value_noop (s : FFoveHMD) (e : Engine) (enable : Bool)
    (h : s.bHmdEnabled = enable) :
    EnableHMD s e enable = .ok (s, e) := by
  simp [EnableHMD, h]

/-- Witness for C5: `EnableHMD(true)` on a freshly constructed object. -/
theorem enableHMD_same_value_noop_witness :
    freshHMD.bHmdEnabled = true ∧ EnableHMD freshHMD bareEngine true = .ok (freshHMD, bareEngine) :=
  ⟨rfl, enableHMD_same_value_noop freshHMD bareEngine true rfl⟩

/-! ## Lemmas on the projection matrix -/

theorem PrivStereoProjectionMatrix_eq (s : FFoveHMD) (FoveHeadset : IFVRHeadset)
    (StereoPass : EStereoscopicPass) (hs : s.bStereoEnabled = true)
    (hh : s.bHmdEnabled = true) :
    PrivStereoProjectionMatrix s FoveHeadset StereoPass =
      .ok (((((if StereoPass = EStereoscopicPass.eSSP_LEFT_EYE
            then (FoveHeadset.GetProjectionMatricesLH s.ZNear s.ZFar).2.1
            else (FoveHeadset.GetProjectionMatricesLH s.ZNear s.ZFar).2.2).ToUnreal.assign 3 3 0
          ).assign 2 3 1).assign 2 2
            (if s.ZNear = s.ZFar then 0 else s.ZNear / (s.ZNear - s.ZFar))).assign 3 2
            (if s.ZNear = s.ZFar then s.ZNear else -s.ZFar * s.ZNear / (s.ZNear - s.ZFar))) := by
  unfold PrivStereoProjectionMatrix
  by_cases hnf : s.ZNear = s.ZFar
  · simp [IsStereoEnabled, check, hs, hh, hnf, bind, Except.bind, pure, Except.pure]
  · have hd : s.ZNear - s.ZFar ≠ 0 := sub_ne_zero.mpr hnf
    simp [IsStereoEnabled, check, hs, hh, hnf, fdiv, hd, bind, Except.bind, pure, Except.pure]

theorem PrivStereoProjectionMatrix_entries (s : FFoveHMD) (FoveHeadset : IFVRHeadset)
    (StereoPass : EStereoscopicPass) (ZNear ZFar : ℚ)
    (hs : s.bStereoEnabled = true) (hh : s.bHmdEnabled = true) :
    ∃ m, PrivStereoProjectionMatrix (SetClippingPlanes s ZNear ZFar) FoveHeadset StereoPass
        = .ok m ∧
      m.M 2 2 = (if ZNear = ZFar then 0 else ZNear / (ZNear - ZFar)) ∧
      m.M 3 2 = (if ZNear = ZFar then ZNear else -ZFar * ZNear / (ZNear - ZFar)) ∧
      m.M 2 3 = 1 ∧ m.M 3 3 = 0 := by
  refine ⟨_, PrivStereoProjectionMatrix_eq (SetClippingPlanes s ZNear ZFar) FoveHeadset
    StereoPass hs hh, ?_, ?_, ?_, ?_⟩
  · simp [FMatrix.assign, SetClippingPlanes]
  · simp [FMatrix.assign, SetClippingPlanes]
  · simp [FMatrix.assign]
  · simp [FMatrix.assign]

theorem perform_clip_equal (c : Call) (s : FFoveHMD) (e : Engine)
    (hi : StereoImpliesHmd s) (hz : s.ZNear = s.ZFar)
    (hc : ∀ a b, c = Call.SetClippingPlanes a b → a = b) :
    ∃ s1 e1, c.perform (s, e) = .ok (s1, e1) ∧ StereoImpliesHmd s1 ∧ s1.ZNear = s1.ZFar := by
  cases c with
  | EnableHMD enable =>
    obtain ⟨s1, e1, hr, hi1, _, hn, hf, _⟩ := EnableHMD_of_inv s e enable hi
    exact ⟨s1, e1, hr, hi1, by rw [hn, hf, hz]⟩
  | EnableStereo enable =>
    obtain ⟨s1, e1, hr, hi1, _, hn, hf, _⟩ := EnableStereo_of_inv s e enable hi
    refine ⟨s1, e1, ?_, hi1, by rw [hn, hf, hz]⟩
    simp [Call.perform, hr]
  | SetClippingPlanes a b => exact ⟨_, _, rfl, hi, hc a b rfl⟩
  | SetupView w => exact ⟨_, _, rfl, hi, hz⟩

theorem runCalls_clip_equal (cs : List Call) (s : FFoveHMD) (e : Engine)
    (hi : StereoImpliesHmd s) (hz : s.ZNear = s.ZFar)
    (hcs : ∀ a b, Call.SetClippingPlanes a b ∈ cs → a = b) :
    ∃ s1 e1, runCalls cs (s, e) = .ok (s1, e1) ∧ StereoImpliesHmd s1 ∧ s1.ZNear = s1.ZFar := by
  induction cs generalizing s e with
  | nil => exact ⟨s, e, rfl, hi, hz⟩
  | cons c rest ih =>
    obtain ⟨s1, e1, hr, hi1, hz1⟩ := perform_clip_equal c s e hi hz (by
      intro a b hc
      exact hcs a b (by simp [hc]))
    obtain ⟨s2, e2, hr2, hi2, hz2⟩ := ih s1 e1 hi1 hz1 (by
      intro a b hm
      exact hcs a b (List.mem_cons_of_mem _ hm))
    refine ⟨s2, e2, ?_, hi2, hz2⟩
    simp [runCalls, hr]
    exact hr2

theorem postDivideDepth_eq (m : FMatrix) (z : ℚ) (h23 : m.M 2 3 = 1) (h33 : m.M 3 3 = 0) :
    postDivideDepth m z = (z * m.M 2 2 + m.M 3 2) / z := by
  simp [postDivideDepth, FMatrix.TransformFVector4, viewAxisPoint, h23, h33]

/-! ## Claims on the projection matrix -/

/-- C6: with stereo enabled (the function's own `check`), for every matrix the
headset answers with and every clip pair set through `SetClippingPlanes`,
`PrivStereoProjectionMatrix` returns a matrix with
`M[2][2] = (ZNear == ZFar ? 0 : ZNear / (ZNear - ZFar))`,
`M[3][2] = (ZNear == ZFar ? ZNear : -ZFar * ZNear / (ZNear - ZFar))`,
`M[2][3] = 1` and `M[3][3] = 0`; for near 0.01 and far 1000 these are
`M[2][2] = -1/99999` and `M[3][2] = 1000/99999`. -/
theorem projection_depth_entries (s : FFoveHMD) (FoveHeadset : IFVRHeadset)
    (StereoPass : EStereoscopicPass) (ZNear ZFar : ℚ)
    (hs : s.bStereoEnabled = true) (hh : s.bHmdEnabled = true) :
    ∃ m, PrivStereoProjectionMatrix (SetClippingPlanes s ZNear ZFar) FoveHeadset StereoPass
        = .ok m ∧
      m.M 2 2 = (if ZNear = ZFar then 0 else ZNear / (ZNear - ZFar)) ∧
      m.M 3 2 = (if ZNear = ZFar then ZNear else -ZFar * ZNear / (ZNear - ZFar)) ∧
      m.M 2 3 = 1 ∧ m.M 3 3 = 0 ∧
      (ZNear = 1 / 100 → ZFar = 1000 → m.M 2 2 = -1 / 99999 ∧ m.M 3 2 = 1000 / 99999) := by
  obtain ⟨m, hm, h22, h32, h23, h33⟩ :=
    PrivStereoProjectionMatrix_entries s FoveHeadset StereoPass ZNear ZFar hs hh
  refine ⟨m, hm, h22, h32, h23, h33, ?_⟩
  intro hn hf
  subst hn hf
  rw [h22, h32]
  constructor <;> norm_num

/-- Witness for C6: the stereo-enabled sample object with near 0.01 and far 1000. -/
theorem projection_depth_entries_witness :
    ∃ m, PrivStereoProjectionMatrix (SetClippingPlanes stereoHMD (1 / 100) 1000) sampleHeadset
        EStereoscopicPass.eSSP_LEFT_EYE = .ok m ∧
      m.M 2 2 = -1 / 99999 ∧ m.M 3 2 = 1000 / 99999 ∧ m.M 2 3 = 1 ∧ m.M 3 3 = 0 := by
  obtain ⟨m, hm, _, _, h23, h33, hex⟩ :=
    projection_depth_entries stereoHMD sampleHeadset EStereoscopicPass.eSSP_LEFT_EYE
      (1 / 100) 1000 rfl rfl
  exact ⟨m, hm, (hex rfl rfl).1, (hex rfl rfl).2, h23, h33⟩

/-- C7: with stereo enabled, for every `n` the projection built with near = far = `n`
is returned without evaluating a division by zero and has `M[2][2] = 0` and
`M[3][2] = n`; a freshly constructed object has `ZNear = ZFar = GNearClippingPlane`,
and `ZNear = ZFar` still holds after every sequence of calls in which no
`SetClippingPlanes` call has distinct arguments. -/
theorem projection_degenerate_clip (s : FFoveHMD) (FoveHeadset : IFVRHeadset)
    (StereoPass : EStereoscopicPass) (n : ℚ)
    (hs : s.bStereoEnabled = true) (hh : s.bHmdEnabled = true)
    (g : ℚ) (layer : SFVR_CompositorLayer) (e0 : Engine) (cs : List Call)
    (hcs : ∀ a b, Call.SetClippingPlanes a b ∈ cs → a = b) :
    (∃ m, PrivStereoProjectionMatrix (SetClippingPlanes s n n) FoveHeadset StereoPass = .ok m ∧
      m.M 2 2 = 0 ∧ m.M 3 2 = n) ∧
    (FFoveHMD.construct g layer).ZNear = g ∧ (FFoveHMD.construct g layer).ZFar = g ∧
    ∃ s1 e1, runCalls cs (FFoveHMD.construct g layer, e0) = .ok (s1, e1) ∧
      s1.ZNear = s1.ZFar ∧
      (s1.bStereoEnabled = true →
        ∃ m, PrivStereoProjectionMatrix s1 FoveHeadset StereoPass = .ok m ∧
          m.M 2 2 = 0 ∧ m.M 3 2 = s1.ZNear) := by
  refine ⟨⟨_, PrivStereoProjectionMatrix_eq (SetClippingPlanes s n n) FoveHeadset
    StereoPass hs hh, ?_, ?_⟩, rfl, rfl, ?_⟩
  · simp [FMatrix.assign, SetClippingPlanes]
  · simp [FMatrix.assign, SetClippingPlanes]
  · obtain ⟨s1, e1, hr, hi, hz⟩ :=
      runCalls_clip_equal cs _ e0 (construct_inv g layer) rfl hcs
    refine ⟨s1, e1, hr, hz, fun hs1 => ⟨_, PrivStereoProjectionMatrix_eq s1 FoveHeadset
      StereoPass hs1 (hi hs1), ?_, ?_⟩⟩
    · simp [FMatrix.assign, hz]
    · simp [FMatrix.assign, hz]

/-- Witness for C7: near = far = 5 on the stereo-enabled sample object, and the
fresh object after `EnableStereo(true)` and `SetClippingPlanes(3, 3)`. -/
theorem projection_degenerate_clip_witness :
    (∃ m, PrivStereoProjectionMatrix (SetClippingPlanes stereoHMD 5 5) sampleHeadset
        EStereoscopicPass.eSSP_RIGHT_EYE = .ok m ∧ m.M 2 2 = 0 ∧ m.M 3 2 = 5) ∧
    ∃ s1 e1, runCalls [Call.EnableStereo true, Call.SetClippingPlanes 3 3]
        (FFoveHMD.construct 10 sampleLayer, bareEngine) = .ok (s1, e1) ∧
      s1.ZNear = s1.ZFar := by
  have h := projection_degenerate_clip stereoHMD sampleHeadset EStereoscopicPass.eSSP_RIGHT_EYE
    5 rfl rfl 10 sampleLayer bareEngine [Call.EnableStereo true, Call.SetClippingPlanes 3 3]
    (by
      intro a b hm
      simp at hm
      rw [hm.1, hm.2])
  obtain ⟨h1, _, _, s1, e1, hr, hz, _⟩ := h
  exact ⟨h1, s1, e1, hr, hz⟩

/-- C8: with stereo enabled, the matrix returned for clip planes near and far
encodes reversed depth. For the view-axis point `(0, 0, z, 1)` transformed as a row
vector, the post-divide depth is `(z * M[2][2] + M[3][2]) / z`. When near and far
are distinct and non-zero the depth is 1 at `z = near` and 0 at `z = far`; when
`0 < near < far` the depth is strictly decreasing in `z` on `z > 0`; when
near = far is non-zero the depth is `near / z`, which is 1 at `z = near` and is
non-zero wherever it is defined (for every non-zero `z`). -/
theorem projection_reversed_depth (s : FFoveHMD) (FoveHeadset : IFVRHeadset)
    (StereoPass : EStereoscopicPass) (near far : ℚ)
    (hs : s.bStereoEnabled = true) (hh : s.bHmdEnabled = true) :
    ∃ m, PrivStereoProjectionMatrix (SetClippingPlanes s near far) FoveHeadset StereoPass
        = .ok m ∧
      (∀ z, postDivideDepth m z = (z * m.M 2 2 + m.M 3 2) / z) ∧
      (near ≠ far → near ≠ 0 → far ≠ 0 →
        postDivideDepth m near = 1 ∧ postDivideDepth m far = 0) ∧
      (0 < near → near < far →
        ∀ z1 z2, 0 < z1 → z1 < z2 → postDivideDepth m z2 < postDivideDepth m z1) ∧
      (near = far → near ≠ 0 →
        (∀ z, postDivideDepth m z = near / z) ∧ postDivideDepth m near = 1 ∧
          ∀ z, z ≠ 0 → postDivideDepth m z ≠ 0) := by
  obtain ⟨m, hm, h22, h32, h23, h33⟩ :=
    PrivStereoProjectionMatrix_entries s FoveHeadset StereoPass near far hs hh
  have hd : ∀ z, postDivideDepth m z = (z * m.M 2 2 + m.M 3 2) / z :=
    fun z => postDivideDepth_eq m z h23 h33
  refine ⟨m, hm, hd, ?_, ?_, ?_⟩
  · intro hnf hn hf
    have hsub : near - far ≠ 0 := sub_ne_zero.mpr hnf
    rw [hd, hd, h22, h32, if_neg hnf, if_neg hnf]
    constructor
    · field_simp
      ring
    · field_simp
  · intro hn hlt z1 z2 hz1 hz12
    have hnf : near ≠ far := ne_of_lt hlt
    have hz2 : 0 < z2 := lt_trans hz1 hz12
    have hsub : near - far < 0 := sub_neg.mpr hlt
    have hfar : 0 < far := lt_trans hn hlt
    rw [hd, hd, h22, h32, if_neg hnf, if_neg hnf]
    have hk : 0 < -far * near / (near - far) := by
      apply div_pos_of_neg_of_neg
      · nlinarith
      · exact hsub
    have hsub0 : near - far ≠ 0 := ne_of_lt hsub
    have hz10 : z1 ≠ 0 := ne_of_gt hz1
    have hz20 : z2 ≠ 0 := ne_of_gt hz2
    have e1 : (z1 * (near / (near - far)) + -far * near / (near - far)) / z1
        = near / (near - far) + (-far * near / (near - far)) / z1 := by
      field_simp
      ring
    have e2 : (z2 * (near / (near - far)) + -far * near / (near - far)) / z2
        = near / (near - far) + (-far * near / (near - far)) / z2 := by
      field_simp
      ring
    rw [e1, e2]
    have : (-far * near / (near - far)) / z2 < (-far * near / (near - far)) / z1 :=
      div_lt_div_of_pos_left hk hz1 hz12
    linarith
  · intro hnf hn
    have hz : ∀ z, postDivideDepth m z = near / z := by
      intro z
      rw [hd, h22, h32, if_pos hnf, if_pos hnf]
      simp
    refine ⟨hz, ?_, ?_⟩
    · rw [hz]
      exact div_self hn
    · intro z hz0
      rw [hz]
      exact div_ne_zero hn hz0

/-- Witness for C8: near 1 and far 2 on the stereo-enabled sample object. -/
theorem projection_reversed_depth_witness :
    ∃ m, PrivStereoProjectionMatrix (SetClippingPlanes stereoHMD 1 2) sampleHeadset
        EStereoscopicPass.eSSP_LEFT_EYE = .ok m ∧
      postDivideDepth m 1 = 1 ∧ postDivideDepth m 2 = 0 ∧
      postDivideDepth m 2 < postDivideDepth m 1 := by
  obtain ⟨m, hm, _, h1, h2, _⟩ :=
    projection_reversed_depth stereoHMD sampleHeadset EStereoscopicPass.eSSP_LEFT_EYE
      1 2 rfl rfl
  have h3 := h1 (by norm_num) (by norm_num) (by norm_num)
  exact ⟨m, hm, h3.1, h3.2, h2 (by norm_num) (by norm_num) 1 2 (by norm_num) (by norm_num)⟩

/-! ## Claims on the vector conversion -/

/-- C9: for every device vector `v` and every non-zero world scale, converting `v`
with `ToUnreal(v, scale)` and then applying the host-to-device mapping of
`ManualDriftCorrection3D` (host `(X, Y, Z)` to device `(Y/scale, Z/scale, X/scale)`)
gives back `v`, so the headset is handed `v`; and `ToUnreal` applied to the
`ManualDriftCorrection3D` mapping of a host vector gives back that host vector. -/
theorem toUnreal_manualDriftCorrection_inverse (s : FFoveHMD) (FoveHeadset : IFVRHeadset)
    (v : SFVR_Vec3) (Location : FVector) (scale : ℚ) (h : scale ≠ 0) :
    ManualDriftCorrection3D.vec (SetupView s scale) (v.ToUnreal scale) = v ∧
    (ManualDriftCorrection3D.vec (SetupView s scale) Location).ToUnreal scale = Location ∧
    ManualDriftCorrection3D (SetupView s scale) FoveHeadset (v.ToUnreal scale)
      = decide (FoveHeadset.ManualDriftCorrection3D v = EFVR_ErrorCode.None) := by
  have h1 : ManualDriftCorrection3D.vec (SetupView s scale) (v.ToUnreal scale) = v := by
    cases v
    simp [ManualDriftCorrection3D.vec, SetupView, SFVR_Vec3.ToUnreal, h]
  refine ⟨h1, ?_, ?_⟩
  · cases Location
    simp [ManualDriftCorrection3D.vec, SetupView, SFVR_Vec3.ToUnreal, h]
  · simp only [ManualDriftCorrection3D, h1]

/-- Witness for C9: the vector `(1, 2, 3)` and host location `(4, 5, 6)` at scale 100. -/
theorem toUnreal_manualDriftCorrection_inverse_witness :
    ManualDriftCorrection3D.vec (SetupView freshHMD 100)
        ((SFVR_Vec3.mk 1 2 3).ToUnreal 100) = SFVR_Vec3.mk 1 2 3 ∧
    (ManualDriftCorrection3D.vec (SetupView freshHMD 100) (FVector.mk 4 5 6)).ToUnreal 100
      = FVector.mk 4 5 6 :=
  have h := toUnreal_manualDriftCorrection_inverse freshHMD sampleHeadset
    (SFVR_Vec3.mk 1 2 3) (FVector.mk 4 5 6) 100 (by norm_num)
  ⟨h.1, h.2.1⟩

/-- C10 as stated fails: for `v = (1, 2, 3)` and scale 2, applying `ToUnreal` with
scale 2 and then with scale 1/2 gives `(2, 3, 1)`, not `(1, 2, 3)`. -/
theorem toUnreal_twice_counterexample :
    ((SFVR_Vec3.mk 1 2 3).ToUnreal 2).asVec3.ToUnreal (1 / 2) = FVector.mk 2 3 1 ∧
    ((SFVR_Vec3.mk 1 2 3).ToUnreal 2).asVec3.ToUnreal (1 / 2)
      ≠ (SFVR_Vec3.mk 1 2 3).asFVector := by
  have h : ((SFVR_Vec3.mk 1 2 3).ToUnreal 2).asVec3.ToUnreal (1 / 2) = FVector.mk 2 3 1 := by
    simp only [SFVR_Vec3.ToUnreal, FVector.asVec3]
    norm_num
  refine ⟨h, ?_⟩
  rw [h]
  simp [SFVR_Vec3.asFVector]

/-- C10 (amended): for every vector `v` and every non-zero scale `s`,
`ToUnreal(ToUnreal(v, s), 1/s)` is `(v.y, v.z, v.x)`: the scale cancels and the
components are rotated by two places, so the result is `v` exactly when
`v.x = v.y = v.z`; a third application with scale 1 gives back `v`. -/
theorem toUnreal_twice_rotates_components (v : SFVR_Vec3) (s : ℚ) (h : s ≠ 0) :
    (v.ToUnreal s).asVec3.ToUnreal (1 / s) = FVector.mk v.y v.z v.x ∧
    ((v.ToUnreal s).asVec3.ToUnreal (1 / s) = v.asFVector ↔ v.x = v.y ∧ v.y = v.z) ∧
    ((v.ToUnreal s).asVec3.ToUnreal (1 / s)).asVec3.ToUnreal 1 = v.asFVector := by
  have h1 : (v.ToUnreal s).asVec3.ToUnreal (1 / s) = FVector.mk v.y v.z v.x := by
    simp [SFVR_Vec3.ToUnreal, FVector.asVec3, h]
  refine ⟨h1, ?_, ?_⟩
  · rw [h1]
    simp only [SFVR_Vec3.asFVector, FVector.mk.injEq]
    constructor
    · rintro ⟨a, b, _⟩
      exact ⟨a.symm, b.symm⟩
    · rintro ⟨a, b⟩
      exact ⟨a.symm, b.symm, a.trans b⟩
  · rw [h1]
    simp [SFVR_Vec3.ToUnreal, FVector.asVec3, SFVR_Vec3.asFVector]

/-- Witness for C10 (amended): the vector `(1, 2, 3)` at scale 2. -/
theorem toUnreal_twice_rotates_components_witness :
    ((SFVR_Vec3.mk 1 2 3).ToUnreal 2).asVec3.ToUnreal (1 / 2)
      = FVector.mk (SFVR_Vec3.mk 1 2 3).y (SFVR_Vec3.mk 1 2 3).z (SFVR_Vec3.mk 1 2 3).x ∧
    (((SFVR_Vec3.mk 1 2 3).ToUnreal 2).asVec3.ToUnreal (1 / 2)).asVec3.ToUnreal 1
      = (SFVR_Vec3.mk 1 2 3).asFVector :=
  have h := toUnreal_twice_rotates_components (SFVR_Vec3.mk 1 2 3) 2 (by norm_num)
  ⟨h.1, h.2.2⟩

/-! ## Claims on the quaternion and matrix conversions -/

/-- C11: for every unit device quaternion `q` and every device vector `v`, rotating
the mapped vector `ToUnreal(v, 1)` by the mapped quaternion `ToUnreal(q)` with the
standard rotation `q v q⁻¹` gives `ToUnreal(rotate(q, v), 1)`, and Unreal's
`FQuat::RotateVector` computes that same rotation for the mapped quaternion; the
mapping copies each component without a sign change (`X = q.z`, `Y = q.x`,
`Z = q.y`, `W = q.w`) and preserves the squared norm, hence the norm. -/
theorem toUnreal_quaternion_commutes_with_rotation (q : SFVR_Quaternion) (v : SFVR_Vec3)
    (hq : quatNormSq q.components = 1) :
    q.ToUnreal.rotate (v.ToUnreal 1) = (q.rotate v).ToUnreal 1 ∧
    q.ToUnreal.RotateVector (v.ToUnreal 1) = (q.rotate v).ToUnreal 1 ∧
    q.ToUnreal = FQuat.mk q.z q.x q.y q.w ∧
    quatNormSq q.ToUnreal.components = quatNormSq q.components := by
  have hn : quatNormSq q.ToUnreal.components = quatNormSq q.components := by
    simp only [quatNormSq, FQuat.components, SFVR_Quaternion.components,
      SFVR_Quaternion.ToUnreal]
    ring
  have hq1 : q.x * q.x + q.y * q.y + q.z * q.z + q.w * q.w = 1 := hq
  have hq2 : q.z * q.z + q.x * q.x + q.y * q.y + q.w * q.w = 1 := by
    rw [← hq1]
    ring
  refine ⟨?_, ?_, rfl, hn⟩
  · simp only [FQuat.rotate, SFVR_Quaternion.rotate, quatRotate, quatInverse, hamilton,
      quatNormSq, FQuat.components, SFVR_Quaternion.components, SFVR_Quaternion.ToUnreal,
      SFVR_Vec3.ToUnreal, hq1, hq2, FVector.mk.injEq]
    refine ⟨?_, ?_, ?_⟩ <;> ring
  · simp only [FQuat.RotateVector, FVector.CrossProduct, SFVR_Quaternion.rotate, quatRotate,
      quatInverse, hamilton, quatNormSq, SFVR_Quaternion.components,
      SFVR_Quaternion.ToUnreal, SFVR_Vec3.ToUnreal, hq1, FVector.mk.injEq]
    have hw : q.w * q.w = 1 - q.x * q.x - q.y * q.y - q.z * q.z := by
      rw [← hq1]
      ring
    refine ⟨?_, ?_, ?_⟩
    · linear_combination (-v.z) * hw
    · linear_combination (-v.x) * hw
    · linear_combination (-v.y) * hw

/-- Witness for C11: the unit quaternion `(3/5, 0, 4/5, 0)` and the vector `(1, 2, 3)`. -/
theorem toUnreal_quaternion_commutes_with_rotation_witness :
    (SFVR_Quaternion.mk (3 / 5) 0 (4 / 5) 0).ToUnreal.rotate ((SFVR_Vec3.mk 1 2 3).ToUnreal 1)
      = ((SFVR_Quaternion.mk (3 / 5) 0 (4 / 5) 0).rotate (SFVR_Vec3.mk 1 2 3)).ToUnreal 1 ∧
    (SFVR_Quaternion.mk (3 / 5) 0 (4 / 5) 0).ToUnreal = FQuat.mk (4 / 5) (3 / 5) 0 0 :=
  have h := toUnreal_quaternion_commutes_with_rotation (SFVR_Quaternion.mk (3 / 5) 0 (4 / 5) 0)
    (SFVR_Vec3.mk 1 2 3) (by norm_num [quatNormSq, SFVR_Quaternion.components])
  ⟨h.1, h.2.2.1⟩

/-- C12: for every device matrix `tm`, `ToUnreal(tm)` is its transpose:
`M[i][j] = tm.mat[j][i]` for all `i`, `j`, so every input entry appears unaltered
in the output, and transposing the output the same way gives back `tm`. -/
theorem toUnreal_matrix_is_transpose (tm : SFVR_Matrix44) (i j : Fin 4) :
    tm.ToUnreal.M i j = tm.mat j i ∧
    tm.mat i j = tm.ToUnreal.M j i ∧
    tm.ToUnreal.asMatrix44.ToUnreal.M i j = tm.mat i j := by
  fin_cases i <;> fin_cases j <;> exact ⟨rfl, rfl, rfl⟩

/-! ## Claims on the gaze queries -/

/-- C13 as stated fails: with `bRelativeToHMD = true`, a head pose turned by half a
turn and a convergence ray from `(1, 2, 3)` along the device `z` axis, the call
succeeds and writes the rotated origin `(-3, -1, 2)` and direction `(-1, 0, 0)`,
not `ToUnreal(origin, WorldToMetersScale) = (3, 1, 2)` and
`ToUnreal(direction, 1) = (1, 0, 0)`. -/
theorem getGazeConvergence_relative_counterexample :
    GetGazeConvergence freshHMD turnedHeadset ⟨0, 0, 0, 1⟩ true
        (some ⟨0, 0, 0⟩) (some ⟨0, 0, 0⟩) none none
      = ⟨true, some ⟨-3, -1, 2⟩, some ⟨-1, 0, 0⟩, none, none⟩ ∧
    turnedHeadset.GetGazeConvergence.2.ray.origin.ToUnreal freshHMD.WorldToMetersScale
      = ⟨3, 1, 2⟩ ∧
    turnedHeadset.GetGazeConvergence.2.ray.direction.ToUnreal 1 = ⟨1, 0, 0⟩ := by
  refine ⟨?_, ?_, ?_⟩
  · simp [GetGazeConvergence, turnedHeadset, sampleHeadset, freshHMD, FFoveHMD.construct,
      SFVR_Vec3.ToUnreal, SFVR_Quaternion.ToUnreal, FQuat.RotateVector, FVector.CrossProduct]
    norm_num
  · simp [turnedHeadset, freshHMD, FFoveHMD.construct, SFVR_Vec3.ToUnreal]
  · simp [turnedHeadset, SFVR_Vec3.ToUnreal]

/-- C13 (amended): when `GetGazeConvergence` is called with `bRelativeToHMD = true`
and both device queries succeed, it returns true and every non-null ray output is
rotated by the head orientation that `GetHMDPose` answered in that call:
`outRayOrigin` is `ToUnreal(pose.orientation).RotateVector(ToUnreal(origin,
WorldToMetersScale))` and `outRayDirection` is
`ToUnreal(pose.orientation).RotateVector(ToUnreal(direction, 1))`. -/
theorem getGazeConvergence_relative_rotates (s : FFoveHMD) (FoveHeadset : IFVRHeadset)
    (uninit : FQuat) (outRayOrigin outRayDirection : Option FVector)
    (outDistance outAccuracy : Option ℚ)
    (hp : FoveHeadset.GetHMDPose.1 = EFVR_ErrorCode.None)
    (hc : FoveHeadset.GetGazeConvergence.1 = EFVR_ErrorCode.None) :
    (GetGazeConvergence s FoveHeadset uninit true outRayOrigin outRayDirection outDistance
      outAccuracy).ret = true ∧
    (GetGazeConvergence s FoveHeadset uninit true outRayOrigin outRayDirection outDistance
      outAccuracy).outRayOrigin
      = outRayOrigin.map (fun _ =>
          FoveHeadset.GetHMDPose.2.orientation.ToUnreal.RotateVector
            (FoveHeadset.GetGazeConvergence.2.ray.origin.ToUnreal s.WorldToMetersScale)) ∧
    (GetGazeConvergence s FoveHeadset uninit true outRayOrigin outRayDirection outDistance
      outAccuracy).outRayDirection
      = outRayDirection.map (fun _ =>
          FoveHeadset.GetHMDPose.2.orientation.ToUnreal.RotateVector
            (FoveHeadset.GetGazeConvergence.2.ray.direction.ToUnreal 1)) := by
  simp [GetGazeConvergence, hp, hc]

/-- Witness for C13 (amended): the half-turned head pose. -/
theorem getGazeConvergence_relative_rotates_witness :
    (GetGazeConvergence freshHMD turnedHeadset ⟨0, 0, 0, 1⟩ true (some ⟨0, 0, 0⟩)
      (some ⟨0, 0, 0⟩) none none).ret = true ∧
    (GetGazeConvergence freshHMD turnedHeadset ⟨0, 0, 0, 1⟩ true (some ⟨0, 0, 0⟩)
      (some ⟨0, 0, 0⟩) none none).outRayOrigin
      = (some (⟨0, 0, 0⟩ : FVector)).map (fun _ =>
          turnedHeadset.GetHMDPose.2.orientation.ToUnreal.RotateVector
            (turnedHeadset.GetGazeConvergence.2.ray.origin.ToUnreal
              freshHMD.WorldToMetersScale)) :=
  have h := getGazeConvergence_relative_rotates freshHMD turnedHeadset ⟨0, 0, 0, 1⟩
    (some ⟨0, 0, 0⟩) (some ⟨0, 0, 0⟩) none none rfl rfl
  ⟨h.1, h.2.1⟩

/-- C14 as stated fails: with `bRelativeToHMD = false`, a head pose turned by half a
turn and a convergence ray from `(1, 2, 3)` along the device `z` axis, the call
writes the unrotated origin `(3, 1, 2)` and direction `(1, 0, 0)`, while rotating
them by the sampled head orientation would give `(-3, -1, 2)` and `(-1, 0, 0)`. -/
theorem getGazeConvergence_world_counterexample :
    GetGazeConvergence freshHMD turnedHeadset ⟨0, 0, 0, 1⟩ false
        (some ⟨0, 0, 0⟩) (some ⟨0, 0, 0⟩) none none
      = ⟨true, some ⟨3, 1, 2⟩, some ⟨1, 0, 0⟩, none, none⟩ ∧
    turnedHeadset.GetHMDPose.2.orientation.ToUnreal.RotateVector ⟨3, 1, 2⟩ = ⟨-3, -1, 2⟩ ∧
    turnedHeadset.GetHMDPose.2.orientation.ToUnreal.RotateVector ⟨1, 0, 0⟩ = ⟨-1, 0, 0⟩ := by
  refine ⟨?_, ?_, ?_⟩
  · simp [GetGazeConvergence, turnedHeadset, sampleHeadset, freshHMD, FFoveHMD.construct,
      SFVR_Vec3.ToUnreal]
  · simp [turnedHeadset, SFVR_Quaternion.ToUnreal, FQuat.RotateVector, FVector.CrossProduct]
    norm_num
  · simp [turnedHeadset, SFVR_Quaternion.ToUnreal, FQuat.RotateVector, FVector.CrossProduct]
    norm_num

/-- C14 (amended): when `GetGazeConvergence` is called with `bRelativeToHMD = false`
and the convergence query succeeds, it returns true and every non-null ray output
is the axis-mapped device ray without any rotation: `outRayOrigin` is
`ToUnreal(origin, WorldToMetersScale)` and `outRayDirection` is
`ToUnreal(direction, 1)`; no head pose enters the result, which is the same for
every answer of `GetHMDPose` and every prior value of the local orientation. -/
theorem getGazeConvergence_world_unrotated (s : FFoveHMD) (FoveHeadset : IFVRHeadset)
    (uninit : FQuat) (outRayOrigin outRayDirection : Option FVector)
    (outDistance outAccuracy : Option ℚ)
    (hc : FoveHeadset.GetGazeConvergence.1 = EFVR_ErrorCode.None) :
    (GetGazeConvergence s FoveHeadset uninit false outRayOrigin outRayDirection outDistance
      outAccuracy).ret = true ∧
    (GetGazeConvergence s FoveHeadset uninit false outRayOrigin outRayDirection outDistance
      outAccuracy).outRayOrigin
      = outRayOrigin.map (fun _ =>
          FoveHeadset.GetGazeConvergence.2.ray.origin.ToUnreal s.WorldToMetersScale) ∧
    (GetGazeConvergence s FoveHeadset uninit false outRayOrigin outRayDirection outDistance
      outAccuracy).outRayDirection
      = outRayDirection.map (fun _ =>
          FoveHeadset.GetGazeConvergence.2.ray.direction.ToUnreal 1) ∧
    ∀ (poseAnswer : EFVR_ErrorCode × SFVR_Pose) (uninit1 : FQuat),
      GetGazeConvergence s { FoveHeadset with GetHMDPose := poseAnswer } uninit1 false
          outRayOrigin outRayDirection outDistance outAccuracy
        = GetGazeConvergence s FoveHeadset uninit false outRayOrigin outRayDirection
            outDistance outAccuracy := by
  refine ⟨?_, ?_, ?_, ?_⟩
  · simp [GetGazeConvergence, hc]
  · simp [GetGazeConvergence, hc]
  · simp [GetGazeConvergence, hc]
  · intro poseAnswer uninit1
    simp [GetGazeConvergence, hc]

/-- Witness for C14 (amended): the half-turned head pose, asked without rotation. -/
theorem getGazeConvergence_world_unrotated_witness :
    (GetGazeConvergence freshHMD turnedHeadset ⟨0, 0, 0, 1⟩ false (some ⟨0, 0, 0⟩)
      (some ⟨0, 0, 0⟩) none none).ret = true ∧
    (GetGazeConvergence freshHMD turnedHeadset ⟨0, 0, 0, 1⟩ false (some ⟨0, 0, 0⟩)
      (some ⟨0, 0, 0⟩) none none).outRayDirection
      = (some (⟨0, 0, 0⟩ : FVector)).map (fun _ =>
          turnedHeadset.GetGazeConvergence.2.ray.direction.ToUnreal 1) :=
  have h := getGazeConvergence_world_unrotated freshHMD turnedHeadset ⟨0, 0, 0, 1⟩
    (some ⟨0, 0, 0⟩) (some ⟨0, 0, 0⟩) none none rfl
  ⟨h.1, h.2.2.1⟩

/-- C15: if the `GetHMDPose` query (made when `bRelativeToHMD` is true) or the
`GetGazeVectors` query answers with a non-success code, `GetGazeVector` returns
false and leaves both outputs as they were; if every query made succeeds, it returns
true and overwrites every non-null output with a value that does not depend on what
was stored there, while a null output stays null. -/
theorem getGazeVector_all_or_nothing (s : FFoveHMD) (FoveHeadset : IFVRHeadset)
    (uninit : FQuat) (bRelativeToHMD : Bool) (outLeft outRight : Option FVector) :
    (((bRelativeToHMD = true ∧ FoveHeadset.GetHMDPose.1 ≠ EFVR_ErrorCode.None) ∨
        FoveHeadset.GetGazeVectors.1 ≠ EFVR_ErrorCode.None) →
      GetGazeVector s FoveHeadset uninit bRelativeToHMD outLeft outRight
        = (false, outLeft, outRight)) ∧
    ((bRelativeToHMD = true → FoveHeadset.GetHMDPose.1 = EFVR_ErrorCode.None) →
      FoveHeadset.GetGazeVectors.1 = EFVR_ErrorCode.None →
      ∃ wl wr : FVector, ∀ l r : Option FVector,
        GetGazeVector s FoveHeadset uninit bRelativeToHMD l r
          = (true, l.map (fun _ => wl), r.map (fun _ => wr))) := by
  constructor
  · rintro (⟨hb, hp⟩ | hg)
    · simp [GetGazeVector, hb, hp]
    · by_cases hc : bRelativeToHMD = true ∧ FoveHeadset.GetHMDPose.1 ≠ EFVR_ErrorCode.None
      · simp [GetGazeVector, hc.1, hc.2]
      · simp only [GetGazeVector, if_neg hc]
        simp [hg]
  · intro hp hg
    cases bRelativeToHMD
    · exact ⟨uninit.RotateVector (FoveHeadset.GetGazeVectors.2.1.vector.ToUnreal 1),
        uninit.RotateVector (FoveHeadset.GetGazeVectors.2.2.vector.ToUnreal 1),
        fun l r => by simp [GetGazeVector, hg]⟩
    · exact ⟨FoveHeadset.GetGazeVectors.2.1.vector.ToUnreal 1,
        FoveHeadset.GetGazeVectors.2.2.vector.ToUnreal 1,
        fun l r => by simp [GetGazeVector, hg, hp rfl]⟩

/-- Witness for C15: a headset whose gaze query fails leaves `(1, 2, 3)` in place and
null stays null; the sample headset, whose queries succeed, returns true. -/
theorem getGazeVector_all_or_nothing_witness :
    GetGazeVector freshHMD
        { sampleHeadset with GetGazeVectors := (EFVR_ErrorCode.Failure 1, ⟨⟨0, 0, 1⟩⟩, ⟨⟨0, 0, 1⟩⟩) }
        ⟨0, 0, 0, 1⟩ true (some ⟨1, 2, 3⟩) none
      = (false, some ⟨1, 2, 3⟩, none) ∧
    ∃ wl wr : FVector, ∀ l r : Option FVector,
      GetGazeVector freshHMD sampleHeadset ⟨0, 0, 0, 1⟩ true l r
        = (true, l.map (fun _ => wl), r.map (fun _ => wr)) :=
  ⟨(getGazeVector_all_or_nothing freshHMD
      { sampleHeadset with GetGazeVectors := (EFVR_ErrorCode.Failure 1, ⟨⟨0, 0, 1⟩⟩, ⟨⟨0, 0, 1⟩⟩) }
      ⟨0, 0, 0, 1⟩ true (some ⟨1, 2, 3⟩) none).1 (Or.inr (by decide)),
    (getGazeVector_all_or_nothing freshHMD sampleHeadset ⟨0, 0, 0, 1⟩ true none none).2
      (fun _ => rfl) rfl⟩

/-- C16 fails on the code: with `bRelativeToHMD = false` no head pose is queried and
the outputs are rotated by the local `HMDOrientation`, which was never assigned. For
the same device answers (gaze along the device `z` axis) the outputs are `(1, 0, 0)`
when that indeterminate value is the identity and `(-1, 0, 0)` when it is a half
turn, and a half-turned head pose answered by `GetHMDPose` has no effect. -/
theorem getGazeVector_world_uninitialised_orientation :
    GetGazeVector freshHMD sampleHeadset ⟨0, 0, 0, 1⟩ false (some ⟨0, 0, 0⟩) (some ⟨0, 0, 0⟩)
      = (true, some ⟨1, 0, 0⟩, some ⟨1, 0, 0⟩) ∧
    GetGazeVector freshHMD sampleHeadset ⟨0, 0, 1, 0⟩ false (some ⟨0, 0, 0⟩) (some ⟨0, 0, 0⟩)
      = (true, some ⟨-1, 0, 0⟩, some ⟨-1, 0, 0⟩) ∧
    GetGazeVector freshHMD turnedHeadset ⟨0, 0, 0, 1⟩ false (some ⟨0, 0, 0⟩) (some ⟨0, 0, 0⟩)
      = (true, some ⟨1, 0, 0⟩, some ⟨1, 0, 0⟩) ∧
    turnedHeadset.GetHMDPose.2.orientation.ToUnreal.RotateVector
        (turnedHeadset.GetGazeVectors.2.1.vector.ToUnreal 1) = ⟨-1, 0, 0⟩ := by
  refine ⟨?_, ?_, ?_, ?_⟩
  · simp [GetGazeVector, sampleHeadset, SFVR_Vec3.ToUnreal, FQuat.RotateVector,
      FVector.CrossProduct]
  · simp [GetGazeVector, sampleHeadset, SFVR_Vec3.ToUnreal, FQuat.RotateVector,
      FVector.CrossProduct]
    norm_num
  · simp [GetGazeVector, turnedHeadset, sampleHeadset, SFVR_Vec3.ToUnreal,
      FQuat.RotateVector, FVector.CrossProduct]
  · simp [turnedHeadset, sampleHeadset, SFVR_Quaternion.ToUnreal, SFVR_Vec3.ToUnreal,
      FQuat.RotateVector, FVector.CrossProduct]
    norm_num

theorem Compute2DGaze_eq (proj : SFVR_Matrix44) (gaze : SFVR_Vec3)
    (hw : Compute2DGaze.projW proj gaze ≠ 0) :
    Compute2DGaze proj gaze
      = .ok (true, ⟨Compute2DGaze.projX proj gaze / Compute2DGaze.projW proj gaze,
          Compute2DGaze.projY proj gaze / Compute2DGaze.projW proj gaze⟩) := by
  simp [Compute2DGaze, fdiv, hw, bind, Except.bind, pure, Except.pure]

/-- C17 fails on the code: with the symmetric projection (tangents 1, near 0.01,
far 1000), a gaze along the frustum axis is written as `(0, 0)`, not the screen
centre `(0.5, 0.5)`, and the gaze `(-1/2, -1/2, 1)`, which lies inside the frustum,
is written as `(-1/2, -1/2)`, outside `[0, 1]`: the outputs are perspective-divided
coordinates centred on 0. -/
theorem getGazeVector2D_not_normalised :
    GetGazeVector2D freshHMD (frustumHeadset ⟨0, 0, 1⟩) (some ⟨9, 9⟩) (some ⟨9, 9⟩)
      = .ok (true, some ⟨0, 0⟩, some ⟨0, 0⟩) ∧
    GetGazeVector2D freshHMD (frustumHeadset ⟨-1 / 2, -1 / 2, 1⟩) (some ⟨9, 9⟩) (some ⟨9, 9⟩)
      = .ok (true, some ⟨-1 / 2, -1 / 2⟩, some ⟨-1 / 2, -1 / 2⟩) := by
  constructor
  · simp [GetGazeVector2D, frustumHeadset, Compute2DGaze, Compute2DGaze.projX,
      Compute2DGaze.projY, Compute2DGaze.projW, symmetricProjection, fdiv, bind, Except.bind,
      pure, Except.pure]
  · simp [GetGazeVector2D, frustumHeadset, Compute2DGaze, Compute2DGaze.projX,
      Compute2DGaze.projY, Compute2DGaze.projW, symmetricProjection, fdiv, bind, Except.bind,
      pure, Except.pure]

theorem GetGazeVector2D_failure (s : FFoveHMD) (FoveHeadset : IFVRHeadset)
    (outLeft outRight : Option FVector2D)
    (h : (FoveHeadset.GetProjectionMatricesLH (1 / 100) 1000).1 ≠ EFVR_ErrorCode.None ∨
      FoveHeadset.GetGazeVectors.1 ≠ EFVR_ErrorCode.None) :
    GetGazeVector2D s FoveHeadset outLeft outRight = .ok (false, outLeft, outRight) := by
  unfold GetGazeVector2D
  generalize FoveHeadset.GetProjectionMatricesLH (1 / 100) 1000 = A at h ⊢
  by_cases hp : A.1 = EFVR_ErrorCode.None
  · rcases h with h | h
    · exact absurd hp h
    · simp [hp, h]
  · simp [hp]

theorem GetGazeVector2D_success (s : FFoveHMD) (FoveHeadset : IFVRHeadset)
    (outLeft outRight : Option FVector2D)
    (hp : (FoveHeadset.GetProjectionMatricesLH (1 / 100) 1000).1 = EFVR_ErrorCode.None)
    (hg : FoveHeadset.GetGazeVectors.1 = EFVR_ErrorCode.None)
    (hl : outLeft.isSome = true →
      Compute2DGaze.projW (FoveHeadset.GetProjectionMatricesLH (1 / 100) 1000).2.1
        FoveHeadset.GetGazeVectors.2.1.vector ≠ 0)
    (hr : outRight.isSome = true →
      Compute2DGaze.projW (FoveHeadset.GetProjectionMatricesLH (1 / 100) 1000).2.2
        FoveHeadset.GetGazeVectors.2.2.vector ≠ 0) :
    GetGazeVector2D s FoveHeadset outLeft outRight
      = .ok (true,
          outLeft.map (fun _ =>
            ⟨Compute2DGaze.projX (FoveHeadset.GetProjectionMatricesLH (1 / 100) 1000).2.1
                FoveHeadset.GetGazeVectors.2.1.vector /
              Compute2DGaze.projW (FoveHeadset.GetProjectionMatricesLH (1 / 100) 1000).2.1
                FoveHeadset.GetGazeVectors.2.1.vector,
              Compute2DGaze.projY (FoveHeadset.GetProjectionMatricesLH (1 / 100) 1000).2.1
                FoveHeadset.GetGazeVectors.2.1.vector /
              Compute2DGaze.projW (FoveHeadset.GetProjectionMatricesLH (1 / 100) 1000).2.1
                FoveHeadset.GetGazeVectors.2.1.vector⟩),
          outRight.map (fun _ =>
            ⟨Compute2DGaze.projX (FoveHeadset.GetProjectionMatricesLH (1 / 100) 1000).2.2
                FoveHeadset.GetGazeVectors.2.2.vector /
              Compute2DGaze.projW (FoveHeadset.GetProjectionMatricesLH (1 / 100) 1000).2.2
                FoveHeadset.GetGazeVectors.2.2.vector,
              Compute2DGaze.projY (FoveHeadset.GetProjectionMatricesLH (1 / 100) 1000).2.2
                FoveHeadset.GetGazeVectors.2.2.vector /
              Compute2DGaze.projW (FoveHeadset.GetProjectionMatricesLH (1 / 100) 1000).2.2
                FoveHeadset.GetGazeVectors.2.2.vector⟩)) := by
  unfold GetGazeVector2D
  generalize FoveHeadset.GetProjectionMatricesLH (1 / 100) 1000 = A at hp hl hr ⊢
  cases outLeft with
  | none =>
    cases outRight with
    | none => simp [hp, hg, bind, Except.bind, pure, Except.pure]
    | some r =>
      simp [hp, hg, Compute2DGaze_eq _ _ (hr rfl), bind, Except.bind, pure, Except.pure]
  | some l =>
    cases outRight with
    | none =>
      simp [hp, hg, Compute2DGaze_eq _ _ (hl rfl), bind, Except.bind, pure, Except.pure]
    | some r =>
      simp [hp, hg, Compute2DGaze_eq _ _ (hl rfl), Compute2DGaze_eq _ _ (hr rfl), bind,
        Except.bind, pure, Except.pure]

theorem Compute2DGaze_proj_eq_dotColumn (proj : SFVR_Matrix44) (gaze : SFVR_Vec3) :
    Compute2DGaze.projX proj gaze = dotColumn proj gaze 0 ∧
    Compute2DGaze.projY proj gaze = dotColumn proj gaze 1 ∧
    Compute2DGaze.projW proj gaze = dotColumn proj gaze 3 := by
  simp only [Compute2DGaze.projX, Compute2DGaze.projY, Compute2DGaze.projW, dotColumn]
  refine ⟨?_, ?_, ?_⟩ <;> ring

/-- C18: `GetGazeVector2D` does not depend on the clip planes of the object: after
`SetClippingPlanes` with any values it returns the same result and outputs for the
same headset, and it asks the headset for the projection at the fixed range near
0.01, far 1000 only, so any headset that answers alike at that range and for the
gaze vectors gives the same result and outputs. -/
theorem getGazeVector2D_independent_of_clip_planes (s : FFoveHMD)
    (FoveHeadset FoveHeadset1 : IFVRHeadset) (outLeft outRight : Option FVector2D)
    (NCP FCP : ℚ)
    (hp : FoveHeadset1.GetProjectionMatricesLH (1 / 100) 1000
      = FoveHeadset.GetProjectionMatricesLH (1 / 100) 1000)
    (hg : FoveHeadset1.GetGazeVectors = FoveHeadset.GetGazeVectors) :
    GetGazeVector2D (SetClippingPlanes s NCP FCP) FoveHeadset outLeft outRight
      = GetGazeVector2D s FoveHeadset outLeft outRight ∧
    GetGazeVector2D (SetClippingPlanes s NCP FCP) FoveHeadset1 outLeft outRight
      = GetGazeVector2D s FoveHeadset outLeft outRight := by
  constructor
  · rfl
  · unfold GetGazeVector2D
    rw [hp, hg]

/-- Witness for C18: a headset that fails outside the range (0.01, 1000) gives the
same 2D gaze as the sample headset, whatever the clip planes of the object. -/
theorem getGazeVector2D_independent_of_clip_planes_witness :
    GetGazeVector2D (SetClippingPlanes freshHMD 5 50) sampleHeadset (some ⟨0, 0⟩) none
      = GetGazeVector2D freshHMD sampleHeadset (some ⟨0, 0⟩) none ∧
    GetGazeVector2D (SetClippingPlanes freshHMD 5 50)
        { sampleHeadset with
          GetProjectionMatricesLH := fun n f =>
            if n = 1 / 100 ∧ f = 1000 then
              (EFVR_ErrorCode.None, identityMatrix44, identityMatrix44)
            else (EFVR_ErrorCode.Failure 1, identityMatrix44, identityMatrix44) }
        (some ⟨0, 0⟩) none
      = GetGazeVector2D freshHMD sampleHeadset (some ⟨0, 0⟩) none :=
  getGazeVector2D_independent_of_clip_planes freshHMD sampleHeadset
    { sampleHeadset with
      GetProjectionMatricesLH := fun n f =>
        if n = 1 / 100 ∧ f = 1000 then
          (EFVR_ErrorCode.None, identityMatrix44, identityMatrix44)
        else (EFVR_ErrorCode.Failure 1, identityMatrix44, identityMatrix44) }
    (some ⟨0, 0⟩) none 5 50 (by simp [sampleHeadset]) rfl

/-- C19: `GetGazeVector2D` is all-or-nothing. If the projection query (at near 0.01,
far 1000) or the gaze query answers with a non-success code, it returns false and
leaves both outputs as they were. If both succeed, and the perspective divisor of
each requested eye is non-zero, it returns true and writes every non-null output
with `(projX / projW, projY / projW)`, where `projX`, `projY` and `projW` are the
dot products of `(gaze, 1)` with columns 0, 1 and 3 of that eye's projection
matrix; a null output stays null. -/
theorem getGazeVector2D_all_or_nothing (s : FFoveHMD) (FoveHeadset : IFVRHeadset)
    (outLeft outRight : Option FVector2D)
    (perr gerr : EFVR_ErrorCode) (lProj rProj : SFVR_Matrix44) (lGaze rGaze : SFVR_GazeVector)
    (hP : FoveHeadset.GetProjectionMatricesLH (1 / 100) 1000 = (perr, lProj, rProj))
    (hG : FoveHeadset.GetGazeVectors = (gerr, lGaze, rGaze)) :
    ((perr ≠ EFVR_ErrorCode.None ∨ gerr ≠ EFVR_ErrorCode.None) →
      GetGazeVector2D s FoveHeadset outLeft outRight = .ok (false, outLeft, outRight)) ∧
    (perr = EFVR_ErrorCode.None → gerr = EFVR_ErrorCode.None →
      (outLeft.isSome = true → dotColumn lProj lGaze.vector 3 ≠ 0) →
      (outRight.isSome = true → dotColumn rProj rGaze.vector 3 ≠ 0) →
      GetGazeVector2D s FoveHeadset outLeft outRight
        = .ok (true,
            outLeft.map (fun _ =>
              ⟨dotColumn lProj lGaze.vector 0 / dotColumn lProj lGaze.vector 3,
                dotColumn lProj lGaze.vector 1 / dotColumn lProj lGaze.vector 3⟩),
            outRight.map (fun _ =>
              ⟨dotColumn rProj rGaze.vector 0 / dotColumn rProj rGaze.vector 3,
                dotColumn rProj rGaze.vector 1 / dotColumn rProj rGaze.vector 3⟩))) := by
  constructor
  · intro h
    apply GetGazeVector2D_failure
    rw [hP, hG]
    exact h
  · intro hp hg hl hr
    have hl1 := (Compute2DGaze_proj_eq_dotColumn lProj lGaze.vector)
    have hr1 := (Compute2DGaze_proj_eq_dotColumn rProj rGaze.vector)
    have h := GetGazeVector2D_success s FoveHeadset outLeft outRight
      (by rw [hP]; exact hp) (by rw [hG]; exact hg)
      (by rw [hP, hG, hl1.2.2]; exact hl) (by rw [hP, hG, hr1.2.2]; exact hr)
    rw [h, hP, hG]
    simp only [hl1.1, hl1.2.1, hl1.2.2, hr1.1, hr1.2.1, hr1.2.2]

/-- Witness for C19: the symmetric projection with the gaze `(-1/2, -1/2, 1)`; a
failing gaze query leaves `(9, 9)` in place. -/
theorem getGazeVector2D_all_or_nothing_witness :
    GetGazeVector2D freshHMD
        { frustumHeadset ⟨-1 / 2, -1 / 2, 1⟩ with
          GetGazeVectors := (EFVR_ErrorCode.Failure 2, ⟨⟨0, 0, 1⟩⟩, ⟨⟨0, 0, 1⟩⟩) }
        (some ⟨9, 9⟩) none
      = .ok (false, some ⟨9, 9⟩, none) ∧
    GetGazeVector2D freshHMD (frustumHeadset ⟨-1 / 2, -1 / 2, 1⟩) (some ⟨9, 9⟩) none
      = .ok (true,
          (some (⟨9, 9⟩ : FVector2D)).map (fun _ =>
            ⟨dotColumn symmetricProjection ⟨-1 / 2, -1 / 2, 1⟩ 0 /
                dotColumn symmetricProjection ⟨-1 / 2, -1 / 2, 1⟩ 3,
              dotColumn symmetricProjection ⟨-1 / 2, -1 / 2, 1⟩ 1 /
                dotColumn symmetricProjection ⟨-1 / 2, -1 / 2, 1⟩ 3⟩),
          none) :=
  ⟨(getGazeVector2D_all_or_nothing freshHMD
      { frustumHeadset ⟨-1 / 2, -1 / 2, 1⟩ with
        GetGazeVectors := (EFVR_ErrorCode.Failure 2, ⟨⟨0, 0, 1⟩⟩, ⟨⟨0, 0, 1⟩⟩) }
      (some ⟨9, 9⟩) none EFVR_ErrorCode.None (EFVR_ErrorCode.Failure 2) symmetricProjection
      symmetricProjection ⟨⟨0, 0, 1⟩⟩ ⟨⟨0, 0, 1⟩⟩ rfl rfl).1 (Or.inr (by decide)),
    (getGazeVector2D_all_or_nothing freshHMD (frustumHeadset ⟨-1 / 2, -1 / 2, 1⟩)
      (some ⟨9, 9⟩) none EFVR_ErrorCode.None EFVR_ErrorCode.None symmetricProjection
      symmetricProjection ⟨⟨-1 / 2, -1 / 2, 1⟩⟩ ⟨⟨-1 / 2, -1 / 2, 1⟩⟩ rfl rfl).2 rfl rfl
      (fun _ => by simp [dotColumn, symmetricProjection])
      (fun h => absurd h (by decide))⟩

/-! ## Claims on the rendering bridge -/

theorem Present_without_target (b : FoveD3D11Bridge)
    (submitted : List SFVR_CompositorLayerSubmitInfo) (d3d : D3D11)
    (h : b.RenderTargetTexture = none) :
    b.Present true submitted d3d = .ok (false, submitted, d3d) := by
  simp [FoveD3D11Bridge.Present, check, h, bind, Except.bind, pure, Except.pure]

theorem Present_with_target (b : FoveD3D11Bridge)
    (submitted : List SFVR_CompositorLayerSubmitInfo) (d3d : D3D11) (tex : Nat)
    (h : b.RenderTargetTexture = some tex) :
    b.Present true submitted d3d = .ok (true, submitted ++ [b.submitInfo], d3d) := by
  cases hc : (d3d.Dev && d3d.Ctx) <;>
    simp [FoveD3D11Bridge.Present, check, h, hc, bind, Except.bind, pure, Except.pure]

theorem UpdateViewport_records (b : FoveD3D11Bridge) (Viewport : FViewport) :
    ∃ b1, b.UpdateViewport true Viewport = .ok b1 ∧
      b1.RenderTargetTexture = Viewport.RenderTargetTexture.join ∧
      b1.FovePose = b.FovePose ∧ b1.Pose = b.Pose ∧
      b1.FoveCompositorLayer = b.FoveCompositorLayer := by
  unfold FoveD3D11Bridge.UpdateViewport
  cases hv : Viewport.RenderTargetTexture with
  | none =>
    by_cases hn : b.RenderTargetTexture = none
    · exact ⟨b, by simp [check, hn, bind, Except.bind, pure, Except.pure], by simp [hn],
        rfl, rfl, rfl⟩
    · refine ⟨{ b with RenderTargetTexture := none }, ?_, by simp, rfl, rfl, rfl⟩
      have hn1 : ¬ none = b.RenderTargetTexture := fun h => hn h.symm
      simp [check, hn1, bind, Except.bind, pure, Except.pure]
  | some r =>
    by_cases hn : r = b.RenderTargetTexture
    · exact ⟨b, by simp [check, hn, bind, Except.bind, pure, Except.pure], by simp [hn],
        rfl, rfl, rfl⟩
    · exact ⟨{ b with RenderTargetTexture := r },
        by simp [check, hn, bind, Except.bind, pure, Except.pure], by simp, rfl, rfl, rfl⟩

/-- C20: on the rendering thread, `FoveD3D11Bridge::Present` returns false and hands
nothing to the compositor when `RenderTargetTexture` is null, and hands exactly one
frame to the compositor and returns true when a texture is recorded; the Direct3D
state is as before in both cases. A freshly constructed bridge has no texture, and
`UpdateViewport` records the native texture of the viewport (null when the viewport
has none). -/
theorem present_requires_render_target (b : FoveD3D11Bridge)
    (submitted : List SFVR_CompositorLayerSubmitInfo) (d3d : D3D11) :
    (b.RenderTargetTexture = none →
      b.Present true submitted d3d = .ok (false, submitted, d3d)) ∧
    (∀ tex, b.RenderTargetTexture = some tex →
      ∃ frame, b.Present true submitted d3d = .ok (true, submitted ++ [frame], d3d) ∧
        (submitted ++ [frame]).length = submitted.length + 1) ∧
    (∀ Layer FovePose Pose,
      (FoveD3D11Bridge.construct Layer FovePose Pose).RenderTargetTexture = none) ∧
    (∀ Viewport, ∃ b1, b.UpdateViewport true Viewport = .ok b1 ∧
      b1.RenderTargetTexture = Viewport.RenderTargetTexture.join) := by
  refine ⟨Present_without_target b submitted d3d, ?_, fun _ _ _ => rfl, ?_⟩
  · intro tex h
    exact ⟨b.submitInfo, Present_with_target b submitted d3d tex h, by simp⟩
  · intro Viewport
    obtain ⟨b1, h1, h2, _⟩ := UpdateViewport_records b Viewport
    exact ⟨b1, h1, h2⟩

/-- Witness for C20: a fresh bridge presents nothing; the bridge that has recorded
texture 7 submits one frame. -/
theorem present_requires_render_target_witness :
    (FoveD3D11Bridge.construct sampleLayer sampleBridge.FovePose sampleBridge.Pose).Present
        true [] sampleD3D = .ok (false, [], sampleD3D) ∧
    ∃ frame, sampleBridge.Present true [] sampleD3D = .ok (true, [] ++ [frame], sampleD3D) ∧
      ([] ++ [frame]).length = ([] : List SFVR_CompositorLayerSubmitInfo).length + 1 :=
  ⟨(present_requires_render_target
      (FoveD3D11Bridge.construct sampleLayer sampleBridge.FovePose sampleBridge.Pose)
      [] sampleD3D).1 rfl,
    (present_requires_render_target sampleBridge [] sampleD3D).2.1 7 rfl⟩

theorem submitInfo_fields (b : FoveD3D11Bridge) :
    b.submitInfo.layerId = b.FoveCompositorLayer.layerId ∧
    b.submitInfo.pose = b.FovePose ∧
    b.submitInfo.left.texInfo = b.RenderTargetTexture ∧
    b.submitInfo.right.texInfo = b.RenderTargetTexture ∧
    b.submitInfo.left.bounds = { left := 0, top := 0, right := 1 / 2, bottom := 1 } ∧
    b.submitInfo.right.bounds = { left := 1 / 2, top := 0, right := 1, bottom := 1 } :=
  ⟨rfl, rfl, rfl, rfl, rfl, rfl⟩

theorem PreRender_wait_failed (s : FFoveHMD) (b : FoveD3D11Bridge)
    (WaitForRenderPose : Nat → EFVR_ErrorCode × SFVR_Pose) (waits : Nat)
    (h : (WaitForRenderPose waits).1 ≠ EFVR_ErrorCode.None) :
    PreRenderViewFamily_RenderThread s (some b) true WaitForRenderPose waits
      = .ok { Bridge := some b, waits := waits + 1, lateUpdate := none } := by
  simp [PreRenderViewFamily_RenderThread, check, h, bind, Except.bind, pure, Except.pure]

theorem PreRender_wait_succeeded (s : FFoveHMD) (b : FoveD3D11Bridge)
    (WaitForRenderPose : Nat → EFVR_ErrorCode × SFVR_Pose) (waits : Nat)
    (h : (WaitForRenderPose waits).1 = EFVR_ErrorCode.None) :
    PreRenderViewFamily_RenderThread s (some b) true WaitForRenderPose waits
      = .ok { Bridge := some (b.SetRenderPose (WaitForRenderPose waits).2 s.WorldToMetersScale)
              waits := waits + 1
              lateUpdate := some (b.Pose,
                (WaitForRenderPose waits).2.ToUnreal s.WorldToMetersScale) } := by
  simp [PreRenderViewFamily_RenderThread, check, h, bind, Except.bind, pure, Except.pure,
    FoveD3D11Bridge.GetRenderPose, FoveD3D11Bridge.SetRenderPose]

/-- C21: whenever `Present` submits (a texture is recorded, the call is on the
rendering thread), the one frame it hands to the compositor carries the bridge's
layer id, the device pose stored in the bridge, which after `SetRenderPose(pose, _)`
is `pose`, the recorded texture for both eyes, and the bounds left eye
`[0, 0.5] x [0, 1]`, right eye `[0.5, 1] x [0, 1]`, so that the right edge of the
left region is the left edge of the right region. -/
theorem present_submit_info (b : FoveD3D11Bridge) (pose : SFVR_Pose) (WorldToMetersScale : ℚ)
    (tex : Nat) (submitted : List SFVR_CompositorLayerSubmitInfo) (d3d : D3D11)
    (h : b.RenderTargetTexture = some tex) :
    (∃ frame, b.Present true submitted d3d = .ok (true, submitted ++ [frame], d3d) ∧
      frame.pose = b.FovePose) ∧
    ∃ frame, (b.SetRenderPose pose WorldToMetersScale).Present true submitted d3d
        = .ok (true, submitted ++ [frame], d3d) ∧
      frame.layerId = b.FoveCompositorLayer.layerId ∧
      frame.pose = pose ∧
      frame.left.texInfo = some tex ∧ frame.right.texInfo = some tex ∧
      frame.left.bounds = { left := 0, top := 0, right := 1 / 2, bottom := 1 } ∧
      frame.right.bounds = { left := 1 / 2, top := 0, right := 1, bottom := 1 } ∧
      frame.left.bounds.right = frame.right.bounds.left := by
  refine ⟨⟨b.submitInfo, Present_with_target b submitted d3d tex h, rfl⟩, ?_⟩
  have h1 : (b.SetRenderPose pose WorldToMetersScale).RenderTargetTexture = some tex := h
  refine ⟨_, Present_with_target _ submitted d3d tex h1, rfl, rfl, ?_, ?_, rfl, rfl, rfl⟩
  · exact h1
  · exact h1

/-- Witness for C21: the sample bridge after storing a pose at position `(1, 2, 3)`. -/
theorem present_submit_info_witness :
    ∃ frame, (sampleBridge.SetRenderPose ⟨⟨0, 0, 0, 1⟩, ⟨1, 2, 3⟩⟩ 100).Present true []
        sampleD3D = .ok (true, [] ++ [frame], sampleD3D) ∧
      frame.pose = ⟨⟨0, 0, 0, 1⟩, ⟨1, 2, 3⟩⟩ ∧
      frame.left.texInfo = some 7 ∧ frame.right.texInfo = some 7 := by
  obtain ⟨frame, h1, _, h3, h4, h5, _⟩ :=
    (present_submit_info sampleBridge ⟨⟨0, 0, 0, 1⟩, ⟨1, 2, 3⟩⟩ 100 7 [] sampleD3D rfl).2
  exact ⟨frame, h1, h3, h4, h5⟩

/-- C22 as stated fails: the sample bridge has a recorded surface and no render
pose was ever awaited successfully (the one wait made fails and leaves the bridge
as it was), yet `Present` returns true and submits a frame, and a second `Present`
right after does so again. -/
theorem present_without_await_counterexample :
    PreRenderViewFamily_RenderThread freshHMD (some sampleBridge) true
        (fun _ => (EFVR_ErrorCode.Failure 1, ⟨⟨0, 0, 0, 1⟩, ⟨0, 0, 0⟩⟩)) 0
      = .ok { Bridge := some sampleBridge, waits := 1, lateUpdate := none } ∧
    sampleBridge.Present true [] sampleD3D
      = .ok (true, [sampleBridge.submitInfo], sampleD3D) ∧
    sampleBridge.Present true [sampleBridge.submitInfo] sampleD3D
      = .ok (true, [sampleBridge.submitInfo, sampleBridge.submitInfo], sampleD3D) :=
  ⟨PreRender_wait_failed freshHMD sampleBridge _ 0 (by decide),
    Present_with_target sampleBridge [] sampleD3D 7 rfl,
    Present_with_target sampleBridge [sampleBridge.submitInfo] sampleD3D 7 rfl⟩

/-- C22 (amended): `Present` does not depend on a render pose having been awaited.
With a surface recorded, after a `WaitForRenderPose` that failed (which leaves the
bridge as it was) `Present` returns true and submits one frame carrying the pose
stored before, and a further `Present` with no wait in between returns true and
submits that frame again. -/
theorem present_ignores_missing_await (s : FFoveHMD) (b : FoveD3D11Bridge) (tex : Nat)
    (WaitForRenderPose : Nat → EFVR_ErrorCode × SFVR_Pose) (waits : Nat)
    (submitted : List SFVR_CompositorLayerSubmitInfo) (d3d : D3D11)
    (h : b.RenderTargetTexture = some tex)
    (hfail : (WaitForRenderPose waits).1 ≠ EFVR_ErrorCode.None) :
    ∃ r frame, PreRenderViewFamily_RenderThread s (some b) true WaitForRenderPose waits = .ok r ∧
      r.Bridge = some b ∧
      b.Present true submitted d3d = .ok (true, submitted ++ [frame], d3d) ∧
      frame.pose = b.FovePose ∧
      b.Present true (submitted ++ [frame]) d3d
        = .ok (true, submitted ++ [frame] ++ [frame], d3d) :=
  ⟨_, b.submitInfo, PreRender_wait_failed s b WaitForRenderPose waits hfail, rfl,
    Present_with_target b submitted d3d tex h, rfl,
    Present_with_target b (submitted ++ [b.submitInfo]) d3d tex h⟩

/-- Witness for C22 (amended): the sample bridge and a compositor whose waits fail. -/
theorem present_ignores_missing_await_witness :
    ∃ r frame, PreRenderViewFamily_RenderThread freshHMD (some sampleBridge) true
        (fun _ => (EFVR_ErrorCode.Failure 1, ⟨⟨0, 0, 0, 1⟩, ⟨0, 0, 0⟩⟩)) 0 = .ok r ∧
      r.Bridge = some sampleBridge ∧
      sampleBridge.Present true [] sampleD3D = .ok (true, [] ++ [frame], sampleD3D) ∧
      frame.pose = sampleBridge.FovePose ∧
      sampleBridge.Present true ([] ++ [frame]) sampleD3D
        = .ok (true, [] ++ [frame] ++ [frame], sampleD3D) :=
  present_ignores_missing_await freshHMD sampleBridge 7
    (fun _ => (EFVR_ErrorCode.Failure 1, ⟨⟨0, 0, 0, 1⟩, ⟨0, 0, 0⟩⟩)) 0 [] sampleD3D rfl
    (by decide)

/-- C23: `PreRenderViewFamily_RenderThread` with a bridge present, on the rendering
thread, makes exactly one `WaitForRenderPose` call. If that call answers with a
non-success code, the bridge (its device pose and its host-convention render pose)
is exactly as before. If it succeeds with pose `p`, `GetRenderPose()` afterwards is
`ToUnreal(p, WorldToMetersScale)`, the stored device pose is `p`, and a later
`Present` with a recorded texture submits a frame whose pose is `p`. -/
theorem preRender_updates_render_pose (s : FFoveHMD) (b : FoveD3D11Bridge)
    (WaitForRenderPose : Nat → EFVR_ErrorCode × SFVR_Pose) (waits : Nat)
    (submitted : List SFVR_CompositorLayerSubmitInfo) (d3d : D3D11) :
    ∃ r, PreRenderViewFamily_RenderThread s (some b) true WaitForRenderPose waits = .ok r ∧
      r.waits = waits + 1 ∧
      ((WaitForRenderPose waits).1 ≠ EFVR_ErrorCode.None → r.Bridge = some b) ∧
      ((WaitForRenderPose waits).1 = EFVR_ErrorCode.None →
        ∃ b1, r.Bridge = some b1 ∧
          b1.GetRenderPose = (WaitForRenderPose waits).2.ToUnreal s.WorldToMetersScale ∧
          b1.FovePose = (WaitForRenderPose waits).2 ∧
          b1.RenderTargetTexture = b.RenderTargetTexture ∧
          ∀ tex, b.RenderTargetTexture = some tex →
            ∃ frame, b1.Present true submitted d3d = .ok (true, submitted ++ [frame], d3d) ∧
              frame.pose = (WaitForRenderPose waits).2) := by
  by_cases h : (WaitForRenderPose waits).1 = EFVR_ErrorCode.None
  · refine ⟨_, PreRender_wait_succeeded s b WaitForRenderPose waits h, rfl,
      fun hn => absurd h hn, fun _ => ⟨_, rfl, rfl, rfl, rfl, ?_⟩⟩
    intro tex ht
    exact ⟨_, Present_with_target
      (b.SetRenderPose (WaitForRenderPose waits).2 s.WorldToMetersScale) submitted d3d tex ht,
      rfl⟩
  · exact ⟨_, PreRender_wait_failed s b WaitForRenderPose waits h, rfl, fun _ => rfl,
      fun hn => absurd hn h⟩

/-- Witness for C23: a wait that succeeds with the pose at position `(1, 2, 3)` on the
sample bridge, at world scale 1. -/
theorem preRender_updates_render_pose_witness :
    ∃ r, PreRenderViewFamily_RenderThread freshHMD (some sampleBridge) true
        (fun _ => (EFVR_ErrorCode.None, ⟨⟨0, 0, 0, 1⟩, ⟨1, 2, 3⟩⟩)) 4 = .ok r ∧
      r.waits = 4 + 1 ∧
      ∃ b1, r.Bridge = some b1 ∧
        b1.GetRenderPose
          = (⟨⟨0, 0, 0, 1⟩, ⟨1, 2, 3⟩⟩ : SFVR_Pose).ToUnreal freshHMD.WorldToMetersScale ∧
        b1.FovePose = ⟨⟨0, 0, 0, 1⟩, ⟨1, 2, 3⟩⟩ := by
  obtain ⟨r, h1, h2, _, h4⟩ := preRender_updates_render_pose freshHMD sampleBridge
    (fun _ => (EFVR_ErrorCode.None, ⟨⟨0, 0, 0, 1⟩, ⟨1, 2, 3⟩⟩)) 4 [] sampleD3D
  obtain ⟨b1, h5, h6, h7, _⟩ := h4 rfl
  exact ⟨r, h1, h2, b1, h5, h6, h7⟩

/-! ## Claims on the eye state queries and the function library -/

/-- C24 fails on the code: `CheckEyesTracked` and `CheckEyesClosed` only ever write
true. With both outputs holding true beforehand and the headset reporting `Neither`,
each call succeeds and leaves both outputs true instead of setting them to false;
with the headset reporting `Right`, the left output stays true; the library wrapper,
whose outputs are references, passes the stale values through. -/
theorem checkEyes_never_write_false :
    CheckEyesTracked { sampleHeadset with
        CheckEyesTracked := (EFVR_ErrorCode.None, some EFVR_Eye.Neither) }
      (some true) (some true) = (true, some true, some true) ∧
    CheckEyesClosed { sampleHeadset with
        CheckEyesClosed := (EFVR_ErrorCode.None, some EFVR_Eye.Neither) }
      (some true) (some true) = (true, some true, some true) ∧
    CheckEyesTracked { sampleHeadset with
        CheckEyesTracked := (EFVR_ErrorCode.None, some EFVR_Eye.Right) }
      (some true) (some false) = (true, some true, some true) ∧
    UFoveVRFunctionLibrary.CheckEyesTracked
      (some (freshHMD, { sampleHeadset with
        CheckEyesTracked := (EFVR_ErrorCode.None, some EFVR_Eye.Neither) }))
      true true = (true, some true, some true) := by
  refine ⟨?_, ?_, ?_, ?_⟩ <;>
    simp [CheckEyesTracked, CheckEyesClosed, UFoveVRFunctionLibrary.CheckEyesTracked]

/-- C25 fails on the code: with a Fove HMD present whose headset reports that no
calibration is running, `FFoveHMD::IsEyeTrackingCalibrating` returns false, while
`UFoveVRFunctionLibrary::IsEyeTrackingCalibrating` returns true and sends one
`EnsureEyeTrackingCalibration` request to the headset, which is what the library's
`EnsureEyeTrackingCalibration` does for this headset; without an HMD it returns
false and sends nothing. -/
theorem library_isEyeTrackingCalibrating_starts_calibration :
    IsEyeTrackingCalibrating sampleHeadset = false ∧
    UFoveVRFunctionLibrary.IsEyeTrackingCalibrating (some (freshHMD, sampleHeadset))
      = (true, 1) ∧
    UFoveVRFunctionLibrary.IsEyeTrackingCalibrating (some (freshHMD, sampleHeadset))
      = UFoveVRFunctionLibrary.EnsureEyeTrackingCalibration (some (freshHMD, sampleHeadset)) ∧
    UFoveVRFunctionLibrary.IsEyeTrackingCalibrating none = (false, 0) :=
  ⟨rfl, rfl, rfl, rfl⟩

/-! ## Lemmas on rotation -/

theorem RotateVector_SizeSquared (q : FQuat) (V : FVector)
    (hq : quatNormSq q.components = 1) :
    (q.RotateVector V).SizeSquared = V.SizeSquared := by
  have h : q.X * q.X + q.Y * q.Y + q.Z * q.Z + q.W * q.W = 1 := hq
  simp only [FQuat.RotateVector, FVector.CrossProduct, FVector.SizeSquared]
  linear_combination
    (-4 * ((q.X * V.X + q.Y * V.Y + q.Z * V.Z) ^ 2
      - (V.X * V.X + V.Y * V.Y + V.Z * V.Z) * (q.X * q.X + q.Y * q.Y + q.Z * q.Z))) * h

theorem RotateVector_scale (q : FQuat) (V : FVector) (c : ℚ) :
    q.RotateVector ⟨c * V.X, c * V.Y, c * V.Z⟩
      = ⟨c * (q.RotateVector V).X, c * (q.RotateVector V).Y, c * (q.RotateVector V).Z⟩ := by
  simp only [FQuat.RotateVector, FVector.CrossProduct, FVector.mk.injEq]
  refine ⟨?_, ?_, ?_⟩ <;> ring

theorem ToUnreal_SizeSquared (v : SFVR_Vec3) :
    (v.ToUnreal 1).SizeSquared = v.lengthSquared := by
  simp only [SFVR_Vec3.ToUnreal, FVector.SizeSquared, SFVR_Vec3.lengthSquared]
  ring

theorem ToUnreal_scale (v : SFVR_Vec3) (c : ℚ) :
    v.ToUnreal c = ⟨c * (v.ToUnreal 1).X, c * (v.ToUnreal 1).Y, c * (v.ToUnreal 1).Z⟩ := by
  simp only [SFVR_Vec3.ToUnreal, FVector.mk.injEq]
  refine ⟨?_, ?_, ?_⟩ <;> ring

theorem ToUnreal_quatNormSq (q : SFVR_Quaternion) :
    quatNormSq q.ToUnreal.components = quatNormSq q.components := by
  simp only [quatNormSq, FQuat.components, SFVR_Quaternion.components,
    SFVR_Quaternion.ToUnreal]
  ring

/-- C26: when `GetGazeConvergence` succeeds (every query it makes succeeds, and the
head orientation, when one is used, is a unit quaternion), every non-null output is
written: `outDistance` is `WorldToMetersScale` times the device distance,
`outAccuracy` is the device accuracy unchanged, the ray origin is
`WorldToMetersScale` times its unit-scale value, and the ray direction is converted
with scale 1, so that its squared length is that of the device direction. The
accuracy value plays no part in success, so an accuracy of 0 does not make the call
fail. -/
theorem getGazeConvergence_scales_outputs (s : FFoveHMD) (FoveHeadset : IFVRHeadset)
    (uninit : FQuat) (bRelativeToHMD : Bool) (outRayOrigin outRayDirection : Option FVector)
    (outDistance outAccuracy : Option ℚ)
    (hp : bRelativeToHMD = true → FoveHeadset.GetHMDPose.1 = EFVR_ErrorCode.None)
    (hc : FoveHeadset.GetGazeConvergence.1 = EFVR_ErrorCode.None)
    (hq : bRelativeToHMD = true →
      quatNormSq FoveHeadset.GetHMDPose.2.orientation.components = 1) :
    (GetGazeConvergence s FoveHeadset uninit bRelativeToHMD outRayOrigin outRayDirection
      outDistance outAccuracy).ret = true ∧
    (GetGazeConvergence s FoveHeadset uninit bRelativeToHMD outRayOrigin outRayDirection
      outDistance outAccuracy).outDistance
      = outDistance.map (fun _ =>
          s.WorldToMetersScale * FoveHeadset.GetGazeConvergence.2.distance) ∧
    (GetGazeConvergence s FoveHeadset uninit bRelativeToHMD outRayOrigin outRayDirection
      outDistance outAccuracy).outAccuracy
      = outAccuracy.map (fun _ => FoveHeadset.GetGazeConvergence.2.accuracy) ∧
    (∃ o : FVector,
      o = (if bRelativeToHMD = true then
            FoveHeadset.GetHMDPose.2.orientation.ToUnreal.RotateVector
              (FoveHeadset.GetGazeConvergence.2.ray.origin.ToUnreal 1)
          else FoveHeadset.GetGazeConvergence.2.ray.origin.ToUnreal 1) ∧
      (GetGazeConvergence s FoveHeadset uninit bRelativeToHMD outRayOrigin outRayDirection
        outDistance outAccuracy).outRayOrigin
        = outRayOrigin.map (fun _ =>
            ⟨s.WorldToMetersScale * o.X, s.WorldToMetersScale * o.Y,
              s.WorldToMetersScale * o.Z⟩)) ∧
    (∃ d : FVector,
      d = (if bRelativeToHMD = true then
            FoveHeadset.GetHMDPose.2.orientation.ToUnreal.RotateVector
              (FoveHeadset.GetGazeConvergence.2.ray.direction.ToUnreal 1)
          else FoveHeadset.GetGazeConvergence.2.ray.direction.ToUnreal 1) ∧
      (GetGazeConvergence s FoveHeadset uninit bRelativeToHMD outRayOrigin outRayDirection
        outDistance outAccuracy).outRayDirection = outRayDirection.map (fun _ => d) ∧
      d.SizeSquared = FoveHeadset.GetGazeConvergence.2.ray.direction.lengthSquared) := by
  cases bRelativeToHMD with
  | false =>
    refine ⟨by simp [GetGazeConvergence, hc], by simp [GetGazeConvergence, hc],
      by simp [GetGazeConvergence, hc], ⟨_, rfl, ?_⟩, ⟨_, rfl, ?_, ?_⟩⟩
    · simp only [GetGazeConvergence, hc]
      simp [← ToUnreal_scale]
    · simp [GetGazeConvergence, hc]
    · simp [ToUnreal_SizeSquared]
  | true =>
    have hp1 := hp rfl
    have hq1 : quatNormSq FoveHeadset.GetHMDPose.2.orientation.ToUnreal.components = 1 := by
      rw [ToUnreal_quatNormSq]
      exact hq rfl
    refine ⟨by simp [GetGazeConvergence, hc, hp1], by simp [GetGazeConvergence, hc, hp1],
      by simp [GetGazeConvergence, hc, hp1], ⟨_, rfl, ?_⟩, ⟨_, rfl, ?_, ?_⟩⟩
    · simp only [GetGazeConvergence, hc, hp1]
      simp [← RotateVector_scale, ← ToUnreal_scale]
    · simp [GetGazeConvergence, hc, hp1]
    · simp [RotateVector_SizeSquared _ _ hq1, ToUnreal_SizeSquared]

/-- Witness for C26: a convergence answer with accuracy 0, distance 2 and the ray from
`(1, 2, 3)` along the device `z` axis, at world scale 100, head-pose rotation on. -/
theorem getGazeConvergence_scales_outputs_witness :
    (GetGazeConvergence (SetupView freshHMD 100)
      { turnedHeadset with
        GetGazeConvergence := (EFVR_ErrorCode.None, ⟨⟨⟨1, 2, 3⟩, ⟨0, 0, 1⟩⟩, 2, 0⟩) }
      ⟨0, 0, 0, 1⟩ true (some ⟨0, 0, 0⟩) (some ⟨0, 0, 0⟩) (some 0) (some 1)).ret = true ∧
    (GetGazeConvergence (SetupView freshHMD 100)
      { turnedHeadset with
        GetGazeConvergence := (EFVR_ErrorCode.None, ⟨⟨⟨1, 2, 3⟩, ⟨0, 0, 1⟩⟩, 2, 0⟩) }
      ⟨0, 0, 0, 1⟩ true (some ⟨0, 0, 0⟩) (some ⟨0, 0, 0⟩) (some 0) (some 1)).outDistance
      = (some (0 : ℚ)).map (fun _ => (SetupView freshHMD 100).WorldToMetersScale * 2) ∧
    (GetGazeConvergence (SetupView freshHMD 100)
      { turnedHeadset with
        GetGazeConvergence := (EFVR_ErrorCode.None, ⟨⟨⟨1, 2, 3⟩, ⟨0, 0, 1⟩⟩, 2, 0⟩) }
      ⟨0, 0, 0, 1⟩ true (some ⟨0, 0, 0⟩) (some ⟨0, 0, 0⟩) (some 0) (some 1)).outAccuracy
      = (some (1 : ℚ)).map (fun _ => 0) :=
  have h := getGazeConvergence_scales_outputs (SetupView freshHMD 100)
    { turnedHeadset with
      GetGazeConvergence := (EFVR_ErrorCode.None, ⟨⟨⟨1, 2, 3⟩, ⟨0, 0, 1⟩⟩, 2, 0⟩) }
    ⟨0, 0, 0, 1⟩ true (some ⟨0, 0, 0⟩) (some ⟨0, 0, 0⟩) (some 0) (some 1)
    (fun _ => rfl) rfl
    (fun _ => by norm_num [quatNormSq, SFVR_Quaternion.components, turnedHeadset])
  ⟨h.1, h.2.1, h.2.2.1⟩

/-! ## Claims on the stereo view layout -/

theorem wrapInt32_of_range (v : Int) (h0 : -2147483648 ≤ v) (h1 : v < 2147483648) :
    wrapInt32 v = v := by
  unfold wrapInt32
  omega

theorem toUInt32_of_nonneg (v : Int) (h0 : 0 ≤ v) (h1 : v < 4294967296) :
    ((toUInt32 v : Nat) : Int) = v := by
  unfold toUInt32
  omega

theorem GetHMDMonitorInfo_in_range (s : FFoveHMD)
    (hx0 : 0 ≤ s.FoveCompositorLayer.idealResolutionPerEye.x)
    (hx1 : 2 * s.FoveCompositorLayer.idealResolutionPerEye.x < 2147483648) :
    (GetHMDMonitorInfo s).2.ResolutionX = 2 * s.FoveCompositorLayer.idealResolutionPerEye.x ∧
    (GetHMDMonitorInfo s).2.ResolutionY = s.FoveCompositorLayer.idealResolutionPerEye.y ∧
    (GetHMDMonitorInfo s).2.WindowSizeX = 2 * s.FoveCompositorLayer.idealResolutionPerEye.x ∧
    (GetHMDMonitorInfo s).2.WindowSizeY = s.FoveCompositorLayer.idealResolutionPerEye.y := by
  have h : wrapInt32 (s.FoveCompositorLayer.idealResolutionPerEye.x * 2)
      = 2 * s.FoveCompositorLayer.idealResolutionPerEye.x := by
    rw [wrapInt32_of_range _ (by omega) (by omega)]
    ring
  simp only [GetHMDMonitorInfo, h]
  exact ⟨trivial, trivial, trivial, trivial⟩

/-- C27: `GetHMDMonitorInfo` always returns true. For a per-eye resolution that is
non-negative and whose doubled width fits `int32`, it reports
`ResolutionX = WindowSizeX = 2 * idealResolutionPerEye.x` and
`ResolutionY = WindowSizeY = idealResolutionPerEye.y`, and a real transition to
stereo (`EnableStereo(true)` with the device enabled, stereo off and a scene
viewport present) returns true and resizes the viewport to exactly that width and
height. -/
theorem enableStereo_resizes_viewport (s : FFoveHMD) (e : Engine) (vp : FSceneViewport)
    (hh : s.bHmdEnabled = true) (hs : s.bStereoEnabled = false)
    (hv : e.SceneViewport = some vp)
    (hx0 : 0 ≤ s.FoveCompositorLayer.idealResolutionPerEye.x)
    (hx1 : 2 * s.FoveCompositorLayer.idealResolutionPerEye.x < 2147483648)
    (hy0 : 0 ≤ s.FoveCompositorLayer.idealResolutionPerEye.y)
    (hy1 : s.FoveCompositorLayer.idealResolutionPerEye.y < 2147483648) :
    (∀ s0 : FFoveHMD, (GetHMDMonitorInfo s0).1 = true) ∧
    (GetHMDMonitorInfo s).2.ResolutionX = 2 * s.FoveCompositorLayer.idealResolutionPerEye.x ∧
    (GetHMDMonitorInfo s).2.ResolutionY = s.FoveCompositorLayer.idealResolutionPerEye.y ∧
    (GetHMDMonitorInfo s).2.WindowSizeX = (GetHMDMonitorInfo s).2.ResolutionX ∧
    (GetHMDMonitorInfo s).2.WindowSizeY = (GetHMDMonitorInfo s).2.ResolutionY ∧
    ∃ s1 e1 w h, EnableStereo s e true = .ok (true, s1, e1) ∧
      e1.viewportSize = some (w, h) ∧
      (w : Int) = (GetHMDMonitorInfo s).2.ResolutionX ∧
      (h : Int) = (GetHMDMonitorInfo s).2.ResolutionY := by
  obtain ⟨hrx, hry, hwx, hwy⟩ := GetHMDMonitorInfo_in_range s hx0 hx1
  refine ⟨fun _ => rfl, hrx, hry, by rw [hwx, hrx], by rw [hwy, hry], ?_⟩
  refine ⟨{ s with bStereoEnabled := true },
    { EnableStereo.editSceneViewport s e true with bForceDisableFrameRateSmoothing := true },
    toUInt32 (GetHMDMonitorInfo s).2.ResolutionX, toUInt32 (GetHMDMonitorInfo s).2.ResolutionY,
    ?_, ?_, ?_, ?_⟩
  · simp [EnableStereo, hh, hs]
  · have h1 : (GetHMDMonitorInfo s).1 = true := rfl
    cases hw : vp.Window <;>
      simp [Engine.viewportSize, EnableStereo.editSceneViewport, FoveFindSceneViewport, hv, h1,
        hw, FSceneViewport.SetViewportSize, FSceneViewport.SetViewportSizeDrivenByWindow]
  · rw [hrx]
    exact toUInt32_of_nonneg _ (by omega) (by omega)
  · rw [hry]
    exact toUInt32_of_nonneg _ hy0 (by omega)

/-- Witness for C27: the sample layer (1280 by 1440 per eye) and a 640 by 480
viewport without a window. -/
theorem enableStereo_resizes_viewport_witness :
    (GetHMDMonitorInfo freshHMD).2.ResolutionX = 2 * 1280 ∧
    (GetHMDMonitorInfo freshHMD).2.ResolutionY = 1440 ∧
    ∃ s1 e1 w h, EnableStereo freshHMD
        { SceneViewport := some ⟨640, 480, none⟩, bForceDisableFrameRateSmoothing := false } true
          = .ok (true, s1, e1) ∧
      e1.viewportSize = some (w, h) ∧
      (w : Int) = (GetHMDMonitorInfo freshHMD).2.ResolutionX ∧
      (h : Int) = (GetHMDMonitorInfo freshHMD).2.ResolutionY :=
  have h := enableStereo_resizes_viewport freshHMD
    { SceneViewport := some ⟨640, 480, none⟩, bForceDisableFrameRateSmoothing := false }
    ⟨640, 480, none⟩ rfl rfl rfl (by decide) (by decide) (by decide) (by decide)
  ⟨h.2.1, h.2.2.1, h.2.2.2.2.2⟩

theorem ToUnreal_M (tm : SFVR_Matrix44) (i j : Fin 4) : tm.ToUnreal.M i j = tm.mat j i := by
  fin_cases i <;> fin_cases j <;> rfl

/-- C28: with stereo enabled, for every matrix `tm` the headset answers with for the
requested eye and every clip pair, the entries of the returned matrix other than
`(2,2)`, `(3,2)`, `(2,3)` and `(3,3)` are those of the transpose of `tm`:
`M[i][j] = tm.mat[j][i]`; the clip planes reach them only through the headset's
answer. -/
theorem projection_keeps_other_entries (s : FFoveHMD) (FoveHeadset : IFVRHeadset)
    (StereoPass : EStereoscopicPass) (ZNear ZFar : ℚ) (i j : Fin 4)
    (hs : s.bStereoEnabled = true) (hh : s.bHmdEnabled = true)
    (h22 : (i, j) ≠ (2, 2)) (h32 : (i, j) ≠ (3, 2)) (h23 : (i, j) ≠ (2, 3))
    (h33 : (i, j) ≠ (3, 3)) :
    ∃ m, PrivStereoProjectionMatrix (SetClippingPlanes s ZNear ZFar) FoveHeadset StereoPass
        = .ok m ∧
      m.M i j =
        (if StereoPass = EStereoscopicPass.eSSP_LEFT_EYE
          then (FoveHeadset.GetProjectionMatricesLH ZNear ZFar).2.1
          else (FoveHeadset.GetProjectionMatricesLH ZNear ZFar).2.2).mat j i := by
  refine ⟨_, PrivStereoProjectionMatrix_eq (SetClippingPlanes s ZNear ZFar) FoveHeadset
    StereoPass hs hh, ?_⟩
  have e22 : ¬ (i = 2 ∧ j = 2) := fun h => h22 (by rw [h.1, h.2])
  have e32 : ¬ (i = 3 ∧ j = 2) := fun h => h32 (by rw [h.1, h.2])
  have e23 : ¬ (i = 2 ∧ j = 3) := fun h => h23 (by rw [h.1, h.2])
  have e33 : ¬ (i = 3 ∧ j = 3) := fun h => h33 (by rw [h.1, h.2])
  simp only [FMatrix.assign, if_neg e22, if_neg e32, if_neg e23, if_neg e33, ToUnreal_M,
    SetClippingPlanes]

/-- Witness for C28: entry `(0, 0)` of the left-eye matrix of the sample headset. -/
theorem projection_keeps_other_entries_witness :
    ∃ m, PrivStereoProjectionMatrix (SetClippingPlanes stereoHMD 1 2) sampleHeadset
        EStereoscopicPass.eSSP_LEFT_EYE = .ok m ∧ m.M 0 0 = 1 := by
  obtain ⟨m, h1, h2⟩ := projection_keeps_other_entries stereoHMD sampleHeadset
    EStereoscopicPass.eSSP_LEFT_EYE 1 2 0 0 rfl rfl (by decide) (by decide) (by decide)
    (by decide)
  refine ⟨m, h1, ?_⟩
  rw [h2]
  simp [sampleHeadset, identityMatrix44]

/-- C29: for every unit view rotation `q`, interpupillary distance `d` and scale
`w`, `CalculateStereoViewOffset` moves the left eye by `q.RotateVector (0, -d*w/2, 0)`
and the right eye by `q.RotateVector (0, d*w/2, 0)`, which is the exact negation, so
the squared distance between the two eye positions is `(d*w)²`; for a pass that is
neither eye `ViewLocation` is unchanged. -/
theorem stereoViewOffset_symmetric (FoveHeadset : IFVRHeadset) (q : FQuat)
    (d WorldToMeters : ℚ) (ViewLocation : FVector)
    (hd : GetInterpupillaryDistance FoveHeadset = d)
    (hq : quatNormSq q.components = 1) :
    CalculateStereoViewOffset FoveHeadset EStereoscopicPass.eSSP_LEFT_EYE q WorldToMeters
        ViewLocation
      = ViewLocation.add (q.RotateVector ⟨0, -(d * WorldToMeters / 2), 0⟩) ∧
    CalculateStereoViewOffset FoveHeadset EStereoscopicPass.eSSP_RIGHT_EYE q WorldToMeters
        ViewLocation
      = ViewLocation.add (q.RotateVector ⟨0, d * WorldToMeters / 2, 0⟩) ∧
    q.RotateVector ⟨0, d * WorldToMeters / 2, 0⟩
      = ⟨-(q.RotateVector ⟨0, -(d * WorldToMeters / 2), 0⟩).X,
          -(q.RotateVector ⟨0, -(d * WorldToMeters / 2), 0⟩).Y,
          -(q.RotateVector ⟨0, -(d * WorldToMeters / 2), 0⟩).Z⟩ ∧
    (FVector.mk
      ((CalculateStereoViewOffset FoveHeadset EStereoscopicPass.eSSP_RIGHT_EYE q WorldToMeters
          ViewLocation).X -
        (CalculateStereoViewOffset FoveHeadset EStereoscopicPass.eSSP_LEFT_EYE q WorldToMeters
          ViewLocation).X)
      ((CalculateStereoViewOffset FoveHeadset EStereoscopicPass.eSSP_RIGHT_EYE q WorldToMeters
          ViewLocation).Y -
        (CalculateStereoViewOffset FoveHeadset EStereoscopicPass.eSSP_LEFT_EYE q WorldToMeters
          ViewLocation).Y)
      ((CalculateStereoViewOffset FoveHeadset EStereoscopicPass.eSSP_RIGHT_EYE q WorldToMeters
          ViewLocation).Z -
        (CalculateStereoViewOffset FoveHeadset EStereoscopicPass.eSSP_LEFT_EYE q WorldToMeters
          ViewLocation).Z)).SizeSquared = (d * WorldToMeters) ^ 2 ∧
    CalculateStereoViewOffset FoveHeadset EStereoscopicPass.eSSP_FULL q WorldToMeters
        ViewLocation = ViewLocation := by
  have hL : CalculateStereoViewOffset FoveHeadset EStereoscopicPass.eSSP_LEFT_EYE q
      WorldToMeters ViewLocation
      = ViewLocation.add (q.RotateVector ⟨0, -(d * WorldToMeters / 2), 0⟩) := by
    simp only [CalculateStereoViewOffset, hd]
    simp
    congr 3
    ring
  have hR : CalculateStereoViewOffset FoveHeadset EStereoscopicPass.eSSP_RIGHT_EYE q
      WorldToMeters ViewLocation
      = ViewLocation.add (q.RotateVector ⟨0, d * WorldToMeters / 2, 0⟩) := by
    simp [CalculateStereoViewOffset, hd]
  refine ⟨hL, hR, ?_, ?_, ?_⟩
  · simp only [FQuat.RotateVector, FVector.CrossProduct, FVector.mk.injEq]
    refine ⟨?_, ?_, ?_⟩ <;> ring
  · rw [hL, hR]
    have h1 := RotateVector_SizeSquared q ⟨0, d * WorldToMeters, 0⟩ hq
    simp only [FVector.SizeSquared, FVector.add, FQuat.RotateVector, FVector.CrossProduct]
      at h1 ⊢
    linear_combination h1
  · simp [CalculateStereoViewOffset]

/-- Witness for C29: the unit quaternion `(0, 0, 3/5, 4/5)`, a turn about the
vertical axis, with the sample headset's interpupillary distance 0.063 at scale 100
and the view at `(10, 20, 30)`. -/
theorem stereoViewOffset_symmetric_witness :
    CalculateStereoViewOffset sampleHeadset EStereoscopicPass.eSSP_LEFT_EYE
        ⟨0, 0, 3 / 5, 4 / 5⟩ 100 ⟨10, 20, 30⟩
      = (FVector.mk 10 20 30).add
          ((FQuat.mk 0 0 (3 / 5) (4 / 5)).RotateVector ⟨0, -(63 / 1000 * 100 / 2), 0⟩) ∧
    CalculateStereoViewOffset sampleHeadset EStereoscopicPass.eSSP_FULL
        ⟨0, 0, 3 / 5, 4 / 5⟩ 100 ⟨10, 20, 30⟩ = ⟨10, 20, 30⟩ :=
  have h := stereoViewOffset_symmetric sampleHeadset ⟨0, 0, 3 / 5, 4 / 5⟩ (63 / 1000) 100
    ⟨10, 20, 30⟩ rfl (by norm_num [quatNormSq, FQuat.components])
  ⟨h.1, h.2.2.2.2⟩

/-- C30: for every `X` in `int32`, `SizeX` in `uint32` with `X + SizeX` representable
in `int32`, and every `Y`, `SizeY`: both eyes get the width `SizeX / 2` (rounded
down) with `Y` and `SizeY` unchanged, the left eye keeps `X` and the right eye gets
`X + SizeX / 2`. The two rectangles are therefore adjacent and do not overlap (the
left one ends where the right one starts), both lie inside the original rectangle,
and together they cover it exactly when `SizeX` is even. -/
theorem adjustViewRect_splits_in_halves (X Y : Int) (SizeX SizeY : Nat)
    (hX0 : -2147483648 ≤ X) (hX1 : X < 2147483648) (hS : SizeX < 4294967296)
    (hsum : X + SizeX < 2147483648) :
    AdjustViewRect EStereoscopicPass.eSSP_LEFT_EYE X Y SizeX SizeY
      = (X, Y, SizeX / 2, SizeY) ∧
    AdjustViewRect EStereoscopicPass.eSSP_RIGHT_EYE X Y SizeX SizeY
      = (X + ((SizeX / 2 : Nat) : Int), Y, SizeX / 2, SizeY) ∧
    (AdjustViewRect EStereoscopicPass.eSSP_LEFT_EYE X Y SizeX SizeY).1
        + (((AdjustViewRect EStereoscopicPass.eSSP_LEFT_EYE X Y SizeX SizeY).2.2.1 : Nat) : Int)
      = (AdjustViewRect EStereoscopicPass.eSSP_RIGHT_EYE X Y SizeX SizeY).1 ∧
    X ≤ (AdjustViewRect EStereoscopicPass.eSSP_LEFT_EYE X Y SizeX SizeY).1 ∧
    (AdjustViewRect EStereoscopicPass.eSSP_RIGHT_EYE X Y SizeX SizeY).1
        + (((AdjustViewRect EStereoscopicPass.eSSP_RIGHT_EYE X Y SizeX SizeY).2.2.1 : Nat) : Int)
      ≤ X + (SizeX : Int) ∧
    ((AdjustViewRect EStereoscopicPass.eSSP_RIGHT_EYE X Y SizeX SizeY).1
        + (((AdjustViewRect EStereoscopicPass.eSSP_RIGHT_EYE X Y SizeX SizeY).2.2.1 : Nat) : Int)
      = X + (SizeX : Int) ↔ SizeX % 2 = 0) := by
  have hL : AdjustViewRect EStereoscopicPass.eSSP_LEFT_EYE X Y SizeX SizeY
      = (X, Y, SizeX / 2, SizeY) := by
    simp [AdjustViewRect]
  have hR : AdjustViewRect EStereoscopicPass.eSSP_RIGHT_EYE X Y SizeX SizeY
      = (X + ((SizeX / 2 : Nat) : Int), Y, SizeX / 2, SizeY) := by
    have hx : wrapInt32 (((toUInt32 X + SizeX / 2) % 4294967296 : Nat) : Int)
        = X + ((SizeX / 2 : Nat) : Int) := by
      unfold wrapInt32 toUInt32
      omega
    simp only [AdjustViewRect]
    rw [if_pos trivial, hx]
  refine ⟨hL, hR, ?_, ?_, ?_, ?_⟩
  · rw [hL, hR]
  · rw [hL]
  · rw [hR]
    simp only
    omega
  · rw [hR]
    simp only
    omega

/-- Witness for C30: the rectangle at `X = 10` with width 1921. -/
theorem adjustViewRect_splits_in_halves_witness :
    AdjustViewRect EStereoscopicPass.eSSP_LEFT_EYE 10 5 1921 1080 = (10, 5, 1921 / 2, 1080) ∧
    AdjustViewRect EStereoscopicPass.eSSP_RIGHT_EYE 10 5 1921 1080
      = (10 + ((1921 / 2 : Nat) : Int), 5, 1921 / 2, 1080) :=
  have h := adjustViewRect_splits_in_halves 10 5 1921 1080 (by decide) (by decide) (by decide)
    (by decide)
  ⟨h.1, h.2.1⟩

end FoveHMD
